import Mathlib

/-!
Verification of the tiled navmesh build-and-assembly pipeline of
SwiftRecastNavigation (Sources/CRecast/Bridging.cpp, Bridging.h).

The development shallowly embeds the bridging layer: pure helpers
(nextPow2, ilog2, the identifier bit split, the tile-grid planner) become
Lean functions on Nat / Rat; the fallible, buffer-heavy single-tile
pipeline and the multi-tile build loop become functions parameterised by
the outcomes of the external geometry-processing engine (Recast/Detour),
with explicit tracking of allocated intermediates and of the engine calls
made.  Machine unsigned arithmetic is modelled on Nat with explicit
reductions modulo 2^32 where the C code can wrap.
-/

namespace SwiftRecast

/-- Helper from Bridging.cpp lines 21-31: round a 32-bit unsigned value up
to the next power of two.  The bit-smearing cascade between the decrement
and the increment; unsigned wrap-around of `v--` and `v++` is modelled by
reduction modulo 2^32. -/
def smear (v : Nat) : Nat :=
  let v := v ||| (v >>> 1)
  let v := v ||| (v >>> 2)
  let v := v ||| (v >>> 4)
  let v := v ||| (v >>> 8)
  let v := v ||| (v >>> 16)
  v

/-- nextPow2 from Bridging.cpp lines 21-31: `v--`, the or-shift cascade,
then `v++`, all in 32-bit unsigned arithmetic. -/
def nextPow2 (v : Nat) : Nat :=
  let v := (v + (2 ^ 32 - 1)) % 2 ^ 32
  let v := smear v
  (v + 1) % 2 ^ 32

/-- ilog2 from Bridging.cpp lines 33-43: branchless floor of log2 of a
32-bit unsigned value. -/
def ilog2 (v : Nat) : Nat :=
  let r := (if 0xffff < v then 1 else 0) <<< 4
  let v := v >>> r
  let s := (if 0xff < v then 1 else 0) <<< 3
  let v := v >>> s
  let r := r ||| s
  let s := (if 0xf < v then 1 else 0) <<< 2
  let v := v >>> s
  let r := r ||| s
  let s := (if 0x3 < v then 1 else 0) <<< 1
  let v := v >>> s
  let r := r ||| s
  r ||| (v >>> 1)

/-- Tile identifier bit count, Bridging.cpp lines 422-423:
`rcMin((int)ilog2(nextPow2(tw*th)), 14)` followed by the redundant cap
`if (tileBits > 14) tileBits = 14`. -/
def tileBits (T : Nat) : Nat :=
  let tb := min (ilog2 (nextPow2 T)) 14
  if 14 < tb then 14 else tb

/-- Polygon identifier bit count, Bridging.cpp line 424: `22 - tileBits`. -/
def polyBits (T : Nat) : Nat := 22 - tileBits T

/-- Maximum tile capacity, Bridging.cpp line 425: `1 << tileBits`. -/
def maxTiles (T : Nat) : Nat := 1 <<< tileBits T

/-- Maximum polygons per tile, Bridging.cpp line 426: `1 << polyBits`. -/
def maxPolysPerTile (T : Nat) : Nat := 1 <<< polyBits T

/-- Tile-grid width, Bridging.cpp line 417: `(gw + ts - 1) / ts`. -/
def tileGridWidth (gw ts : Nat) : Nat := (gw + ts - 1) / ts

/-- Tile-grid height, Bridging.cpp line 418: `(gh + ts - 1) / ts`. -/
def tileGridHeight (gh ts : Nat) : Nat := (gh + ts - 1) / ts

/-- Total number of tiles, Bridging.cpp line 419: `tw * th`. -/
def totalTilesOf (gw gh ts : Nat) : Nat := tileGridWidth gw ts * tileGridHeight gh ts

/-- A world-space point or corner; the three float components of the C
code are modelled as exact rationals. -/
structure Vec3 where
  x : ℚ
  y : ℚ
  z : ℚ
deriving DecidableEq, Repr

/-- bindingCalcTileBounds, Bridging.cpp lines 631-644: world-space bounds
of tile (tx, ty).  Returns the pair (tileBmin, tileBmax). -/
def bindingCalcTileBounds (bmin bmax : Vec3) (tx ty : ℤ) (tileSize cellSize : ℚ) :
    Vec3 × Vec3 :=
  let ts := tileSize * cellSize
  (⟨bmin.x + tx * ts, bmin.y, bmin.z + ty * ts⟩,
   ⟨bmin.x + (tx + 1) * ts, bmax.y, bmin.z + (ty + 1) * ts⟩)

/-- Filter flag from Bridging.h line 49. -/
def FILTER_LOW_HANGING_OBSTACLES : Nat := 1

/-- Filter flag from Bridging.h line 50. -/
def FILTER_LEDGE_SPANS : Nat := 2

/-- Filter flag from Bridging.h line 51. -/
def FILTER_WALKABLE_LOW_HEIGHT_SPANS : Nat := 4

/-- Partition field mask from Bridging.h line 54. -/
def PARTITION_MASK : Nat := 24

/-- Watershed partition flag from Bridging.h line 55. -/
def PARTITION_WATERSHED : Nat := 8

/-- Monotone partition flag from Bridging.h line 56. -/
def PARTITION_MONOTONE : Nat := 16

/-- Layer partition flag from Bridging.h line 57. -/
def PARTITION_LAYER : Nat := 0

/-- The walkable area code the geometry engine assigns to triangles that
pass the slope classification (RC_WALKABLE_AREA in Recast.h, value 63). -/
def RC_WALKABLE_AREA : Nat := 63

/-- AreaMarkingData from Bridging.cpp lines 46-52: one overlay's vertex
buffer, triangle index buffer (both possibly null), their counts, and the
area code.  Vertex floats are modelled as rationals; triangle entries are
index triples into the overlay's own vertex buffer. -/
structure AreaMarkingData where
  verts : Option (List Vec3)
  nverts : Nat
  tris : Option (List (Nat × Nat × Nat))
  ntris : Nat
  areaCode : Nat
deriving DecidableEq, Repr

/-- The fields of the compacted heightfield read by markAreasFromMesh
(Bridging.cpp lines 61-62, 95): vertical bounds and vertical cell size. -/
structure CompactHF where
  bminY : ℚ
  bmaxY : ℚ
  ch : ℚ
deriving DecidableEq, Repr

/-- One rcMarkConvexPolyArea invocation emitted by markAreasFromMesh
(Bridging.cpp line 113): the three triangle vertices, the expanded
vertical band, and the overlay's area code. -/
structure MarkCall where
  verts : List Vec3
  hmin : ℚ
  hmax : ℚ
  areaCode : Nat
deriving DecidableEq, Repr

/-- markAreasFromMesh from Bridging.cpp lines 55-123, with the engine call
rcMarkConvexPolyArea recorded as an emitted MarkCall.  For each triangle
of each overlay with non-null, non-empty buffers: gather its vertices,
take the min and max of their heights (initialised with vertex 0's height,
then two loop iterations), expand by the adaptive tolerance, and mark. -/
def markAreasFromMesh (chf : CompactHF) (areas : List AreaMarkingData) (numAreas : Nat) :
    List MarkCall :=
  (areas.take numAreas).flatMap (fun area =>
    match area.verts, area.tris with
    | some vb, some tb =>
      if area.nverts = 0 ∨ area.ntris = 0 then []
      else
        (List.range area.ntris).map (fun j =>
          let tri := tb.getD j (0, 0, 0)
          let v0 := vb.getD tri.1 ⟨0, 0, 0⟩
          let v1 := vb.getD tri.2.1 ⟨0, 0, 0⟩
          let v2 := vb.getD tri.2.2 ⟨0, 0, 0⟩
          let hmin := min (min v0.y v1.y) v2.y
          let hmax := max (max v0.y v1.y) v2.y
          let baseTolerance := chf.ch * 10
          let rangeTolerance := (chf.bmaxY - chf.bminY) * 0.05
          let positionTolerance := |chf.bminY| * 0.001
          let tolerance := max baseTolerance (max rangeTolerance positionTolerance)
          let tolerance := if 100 < chf.bminY then max tolerance 1 else tolerance
          ⟨[v0, v1, v2], hmin - tolerance, hmax + tolerance, area.areaCode⟩)
    | _, _ => [])

/-- Outcomes of the external geometry-processing engine calls made during
one single-tile build.  Allocation and build steps are success booleans;
the slope classifications (rcMarkWalkableTriangles, modelled from the
spec: classify each triangle walkable or non-walkable by slope against
the configured threshold) are predicates on triangle indices;
dtCreateNavMeshData returns the packed blob size on success. -/
structure Engine where
  allocHeightfield : Bool
  createHeightfield : Bool
  walkableBase : Nat → Bool
  rasterizeBase : Bool
  walkableArea : Nat → Nat → Bool
  allocCompactHeightfield : Bool
  buildCompactHeightfield : Bool
  erodeWalkableArea : Bool
  buildDistanceField : Bool
  buildRegions : Bool
  buildRegionsMonotone : Bool
  buildLayerRegions : Bool
  allocContourSet : Bool
  buildContours : Bool
  allocPolyMesh : Bool
  buildPolyMesh : Bool
  allocPolyMeshDetail : Bool
  buildPolyMeshDetail : Bool
  createNavMeshData : Option Nat

/-- The heap intermediates allocated by buildTileMesh. -/
inductive Res where
  | heightfield
  | triareas
  | areaTriFlags (i : Nat)
  | compactHeightfield
  | contourSet
  | polyMesh
  | polyMeshDetail
deriving DecidableEq, Repr

/-- The engine calls buildTileMesh can make, with the per-triangle area
classifications it passes to the rasterizer recorded as payload. -/
inductive Op where
  | createHeightfield
  | markWalkableTriangles (tf : List Nat)
  | rasterizeTriangles (tf : List Nat)
  | markWalkableTrianglesArea (i : Nat) (tf : List Nat)
  | rasterizeTrianglesArea (i : Nat) (tf : List Nat)
  | filterLowHangingWalkableObstacles
  | filterLedgeSpans
  | filterWalkableLowHeightSpans
  | buildCompactHeightfield
  | erodeWalkableArea
  | markAreas
  | buildDistanceField
  | buildRegions
  | buildRegionsMonotone
  | buildLayerRegions
  | buildContours
  | buildPolyMesh
  | buildPolyMeshDetail
  | createNavMeshData
deriving DecidableEq, Repr

/-- Result of one single-tile build: the returned blob (its packed size)
or absence, the dataSize output parameter, the intermediates still
allocated at return, and the engine calls made. -/
structure TileOut where
  navData : Option Nat
  dataSize : Nat
  live : List Res
  trace : List Op
deriving DecidableEq, Repr

/-- The per-overlay validity test of the loops at Bridging.cpp lines 67
and 189: non-null buffers and non-zero counts. -/
def areaValid (a : AreaMarkingData) : Bool :=
  a.verts.isSome && a.tris.isSome && a.nverts != 0 && a.ntris != 0

/-- The per-triangle classifications buildTileMesh computes for overlay i
(Bridging.cpp lines 191-197): zero-initialised, then the slope
classification marks walkable triangles with RC_WALKABLE_AREA. -/
def areaTriFlagsOf (e : Engine) (i : Nat) (ntris : Nat) : List Nat :=
  (List.range ntris).map (fun j => if e.walkableArea i j then RC_WALKABLE_AREA else 0)

/-- The overlay rasterization loop of buildTileMesh, Bridging.cpp lines
186-206: for each valid overlay, allocate the classification buffer, run
the slope classification, rasterize (the return value is ignored by the
source), and free the buffer. -/
def rasterizeAreasAux (e : Engine) :
    List (Nat × AreaMarkingData) → List Res → List Op → List Res × List Op
  | [], live, tr => (live, tr)
  | (i, a) :: rest, live, tr =>
    if areaValid a then
      let tf := areaTriFlagsOf e i a.ntris
      let live := live ++ [Res.areaTriFlags i]
      let tr := tr ++ [Op.markWalkableTrianglesArea i tf, Op.rasterizeTrianglesArea i tf]
      let live := live.erase (Res.areaTriFlags i)
      rasterizeAreasAux e rest live tr
    else
      rasterizeAreasAux e rest live tr

/-- The partition selection of buildTileMesh, Bridging.cpp lines 246-263:
watershed when the masked partition field equals PARTITION_WATERSHED,
monotone when it equals PARTITION_MONOTONE, layer otherwise; inl is a
failed partition (aborting the tile), inr a successful one, each carrying
the extended trace. -/
def partitionStep (e : Engine) (flags : Nat) (tr : List Op) : Sum (List Op) (List Op) :=
  let partition := flags &&& PARTITION_MASK
  if partition = PARTITION_WATERSHED then
    let tr := tr ++ [Op.buildDistanceField]
    if !e.buildDistanceField then .inl tr
    else
      let tr := tr ++ [Op.buildRegions]
      if !e.buildRegions then .inl tr else .inr tr
  else if partition = PARTITION_MONOTONE then
    let tr := tr ++ [Op.buildRegionsMonotone]
    if !e.buildRegionsMonotone then .inl tr else .inr tr
  else
    let tr := tr ++ [Op.buildLayerRegions]
    if !e.buildLayerRegions then .inl tr else .inr tr

/-- The partition-onwards tail of buildTileMesh, Bridging.cpp lines
245-383: region partitioning, contour tracing, polygon and detail mesh
builds, the in-place poly flag postprocessing, and the final packing; live
and tr are the live-resource list (at this point exactly the compact
heightfield) and the trace accumulated by the earlier steps. -/
def buildTileMeshPost (e : Engine) (flags : Nat) (live : List Res) (tr : List Op) : TileOut :=
  match partitionStep e flags tr with
  | .inl tr => ⟨none, 0, live.erase .compactHeightfield, tr⟩
  | .inr tr =>
    -- rcAllocContourSet, line 266
    if !e.allocContourSet then ⟨none, 0, live.erase .compactHeightfield, tr⟩ else
    let live := live ++ [Res.contourSet]
    -- rcBuildContours, line 272
    let tr := tr ++ [Op.buildContours]
    if !e.buildContours then
      ⟨none, 0, (live.erase .compactHeightfield).erase .contourSet, tr⟩ else
    -- rcAllocPolyMesh, line 279
    if !e.allocPolyMesh then
      ⟨none, 0, (live.erase .compactHeightfield).erase .contourSet, tr⟩ else
    let live := live ++ [Res.polyMesh]
    -- rcBuildPolyMesh, line 286
    let tr := tr ++ [Op.buildPolyMesh]
    if !e.buildPolyMesh then
      ⟨none, 0, ((live.erase .compactHeightfield).erase .contourSet).erase .polyMesh, tr⟩ else
    -- rcAllocPolyMeshDetail, line 294
    if !e.allocPolyMeshDetail then
      ⟨none, 0, ((live.erase .compactHeightfield).erase .contourSet).erase .polyMesh, tr⟩ else
    let live := live ++ [Res.polyMeshDetail]
    -- rcBuildPolyMeshDetail, line 302
    let tr := tr ++ [Op.buildPolyMeshDetail]
    if !e.buildPolyMeshDetail then
      ⟨none, 0,
       (((live.erase .compactHeightfield).erase .contourSet).erase .polyMesh).erase
         .polyMeshDetail, tr⟩ else
    -- rcFreeCompactHeightfield and rcFreeContourSet, lines 311-312
    let live := (live.erase .compactHeightfield).erase .contourSet
    -- poly area and flag postprocessing, lines 315-339, mutates pmesh in place
    -- dtCreateNavMeshData, line 371
    let tr := tr ++ [Op.createNavMeshData]
    match e.createNavMeshData with
    | none => ⟨none, 0, (live.erase .polyMesh).erase .polyMeshDetail, tr⟩
    | some navDataSize =>
      -- dataSize = navDataSize, then free pmesh and dmesh, lines 377-382
      ⟨some navDataSize, navDataSize, (live.erase .polyMesh).erase .polyMeshDetail, tr⟩

/-- buildTileMesh from Bridging.cpp lines 126-383.  The float bound and
config setup (lines 141-160) has no bearing on control flow and is
omitted; every fallible engine call, every allocation and every free is
mirrored in source order.  Failure returns carry exactly the frees the
source performs at that return site. -/
def buildTileMesh (e : Engine) (flags : Nat) (ntris : Nat)
    (areas : Option (List AreaMarkingData)) (numAreas : Nat) : TileOut :=
  -- rcAllocHeightfield, line 163
  if !e.allocHeightfield then ⟨none, 0, [], []⟩ else
  let live := [Res.heightfield]
  -- rcCreateHeightfield, line 166
  let tr := [Op.createHeightfield]
  if !e.createHeightfield then ⟨none, 0, live.erase .heightfield, tr⟩ else
  -- triareas = new unsigned char[ntris], line 173
  let live := live ++ [Res.triareas]
  -- rcMarkWalkableTriangles on the base geometry, line 176
  let baseTf := (List.range ntris).map (fun j => if e.walkableBase j then RC_WALKABLE_AREA else 0)
  let tr := tr ++ [Op.markWalkableTriangles baseTf]
  -- rcRasterizeTriangles on the base geometry, line 178
  let tr := tr ++ [Op.rasterizeTriangles baseTf]
  if !e.rasterizeBase then ⟨none, 0, (live.erase .triareas).erase .heightfield, tr⟩ else
  -- overlay classification and rasterization, lines 186-206
  let st :=
    match areas with
    | some l => if 0 < numAreas then rasterizeAreasAux e (l.take numAreas).enum live tr
                else (live, tr)
    | none => (live, tr)
  let live := st.1
  let tr := st.2
  -- delete triareas, line 208
  let live := live.erase .triareas
  -- filters, lines 211-216
  let tr := if flags &&& FILTER_LOW_HANGING_OBSTACLES != 0 then
      tr ++ [Op.filterLowHangingWalkableObstacles] else tr
  let tr := if flags &&& FILTER_LEDGE_SPANS != 0 then tr ++ [Op.filterLedgeSpans] else tr
  let tr := if flags &&& FILTER_WALKABLE_LOW_HEIGHT_SPANS != 0 then
      tr ++ [Op.filterWalkableLowHeightSpans] else tr
  -- rcAllocCompactHeightfield, line 219
  if !e.allocCompactHeightfield then ⟨none, 0, live.erase .heightfield, tr⟩ else
  let live := live ++ [Res.compactHeightfield]
  -- rcBuildCompactHeightfield, line 225
  let tr := tr ++ [Op.buildCompactHeightfield]
  if !e.buildCompactHeightfield then
    ⟨none, 0, (live.erase .heightfield).erase .compactHeightfield, tr⟩ else
  -- rcFreeHeightfield, line 231
  let live := live.erase .heightfield
  -- rcErodeWalkableArea, line 234
  let tr := tr ++ [Op.erodeWalkableArea]
  if !e.erodeWalkableArea then ⟨none, 0, live.erase .compactHeightfield, tr⟩ else
  -- markAreasFromMesh after erosion, lines 240-243
  let tr :=
    match areas with
    | some _ => if 0 < numAreas then tr ++ [Op.markAreas] else tr
    | none => tr
  buildTileMeshPost e flags live tr

/-- The watershed partition policy was applied: its first engine call,
rcBuildDistanceField, appears in the trace. -/
def watershedApplied (t : List Op) : Prop := Op.buildDistanceField ∈ t

/-- The monotone partition policy was applied. -/
def monotoneApplied (t : List Op) : Prop := Op.buildRegionsMonotone ∈ t

/-- The layer partition policy was applied. -/
def layerApplied (t : List Op) : Prop := Op.buildLayerRegions ∈ t

/-- Whether an engine call, if it is an overlay rasterize call, passes
only walkable classifications. -/
def opAllWalkable : Op → Bool
  | Op.rasterizeTrianglesArea _ tf => tf.all (fun f => f == RC_WALKABLE_AREA)
  | _ => true

/-- The claim that every overlay triangle is voxelized with the walkable
classification: each classification list passed to an overlay rasterize
call consists only of RC_WALKABLE_AREA. -/
def allAreaTrisMarkedWalkable (t : List Op) : Prop :=
  ∀ o ∈ t, opAllWalkable o = true

instance (t : List Op) : Decidable (watershedApplied t) :=
  inferInstanceAs (Decidable (Op.buildDistanceField ∈ t))

instance (t : List Op) : Decidable (monotoneApplied t) :=
  inferInstanceAs (Decidable (Op.buildRegionsMonotone ∈ t))

instance (t : List Op) : Decidable (layerApplied t) :=
  inferInstanceAs (Decidable (Op.buildLayerRegions ∈ t))

instance (t : List Op) : Decidable (allAreaTrisMarkedWalkable t) :=
  inferInstanceAs (Decidable (∀ o ∈ t, opAllWalkable o = true))

/-- The trace segment the overlay rasterization loop appends: two engine
calls per valid overlay, in overlay order. -/
def areasTrace (e : Engine) (l : List (Nat × AreaMarkingData)) : List Op :=
  l.flatMap (fun p =>
    if areaValid p.2 then
      [Op.markWalkableTrianglesArea p.1 (areaTriFlagsOf e p.1 p.2.ntris),
       Op.rasterizeTrianglesArea p.1 (areaTriFlagsOf e p.1 p.2.ntris)]
    else [])

/-- The net effect of one overlay loop iteration on the live-resource
list: the classification buffer is allocated and freed within the
iteration. -/
def areasLiveStep (lv : List Res) (p : Nat × AreaMarkingData) : List Res :=
  if areaValid p.2 then (lv ++ [Res.areaTriFlags p.1]).erase (Res.areaTriFlags p.1) else lv

/-- Modelled from the spec: the multi-tile navmesh assembler owns a sparse
collection of built tile blobs keyed by grid coordinate, with the fixed
capacity and per-tile polygon capacity computed by the identifier
allocator (the dtNavMesh internals are not part of the bridging source).
A blob is represented by its packed size. -/
structure NavMeshState where
  maxTiles : Nat
  maxPolys : Nat
  tiles : List ((Nat × Nat) × Nat)
deriving DecidableEq, Repr

/-- Modelled from the spec: the composite of dtNavMesh getTileRefAt and
removeTile at Bridging.cpp line 485 — any tile occupying coordinate
(x, y) is removed, freeing its slot. -/
def removeTileAt (nm : NavMeshState) (x y : Nat) : NavMeshState :=
  { nm with tiles := nm.tiles.filter (fun p => p.1 != (x, y)) }

/-- Modelled from the spec: dtNavMesh addTile at Bridging.cpp line 487 —
insertion fails when the blob is malformed or the fixed tile capacity is
reached, and otherwise stores the blob at its embedded coordinate. -/
def addTile (nm : NavMeshState) (x y : Nat) (blob : Nat) (malformed : Bool) :
    Option NavMeshState :=
  if malformed || nm.maxTiles ≤ nm.tiles.length then none
  else some { nm with tiles := nm.tiles ++ [((x, y), blob)] }

/-- The tile insertion step of the build loop, Bridging.cpp lines 484-494:
remove any tile at the coordinate, then add the new blob; on failure the
blob is released and the tiles-built counter is unchanged, on success the
counter increments.  The returned boolean reports insertion success. -/
def addTileStep (mal : Nat → Bool) (nm : NavMeshState) (tilesBuilt : Nat)
    (x y : Nat) (blob : Nat) : NavMeshState × Nat × Bool :=
  let nm := removeTileAt nm x y
  match addTile nm x y blob (mal blob) with
  | none => (nm, tilesBuilt, false)
  | some nm2 => (nm2, tilesBuilt + 1, true)

/-- BCodeStatus from Bridging.h lines 17-24. -/
inductive BCodeStatus where
  | ok
  | errMemory
  | errInitTileNavMesh
  | errBuildTile
  | errAddTile
  | errUnknown
deriving DecidableEq, Repr

/-- BindingTileMeshResult from Bridging.h lines 40-45, extended with the
ghost field attempts: the tile coordinates the build loop processed, in
order. -/
structure BindingTileMeshResult where
  code : BCodeStatus
  navMesh : Option NavMeshState
  tilesBuilt : Nat
  totalTiles : Nat
  attempts : List (Nat × Nat)
deriving DecidableEq, Repr

/-- The row-major traversal order of the loop at Bridging.cpp lines
465-466: y outer over tile rows, x inner over tile columns. -/
def gridCoords (tw th : Nat) : List (Nat × Nat) :=
  (List.range th).flatMap (fun y => (List.range tw).map (fun x => (x, y)))

/-- The body of the build loop at Bridging.cpp lines 465-496, as a fold
step over tile coordinates.  State: assembler, tiles-built counter, and
the ghost list of coordinates processed so far.  A tile whose build fails
is skipped; a blob whose insertion fails is released without stopping. -/
def buildLoopStep (flags ntris : Nat) (areas : Option (List AreaMarkingData))
    (numAreas : Nat) (engines : Nat → Nat → Engine) (mal : Nat → Bool)
    (s : NavMeshState × Nat × List (Nat × Nat)) (xy : Nat × Nat) :
    NavMeshState × Nat × List (Nat × Nat) :=
  let out := buildTileMesh (engines xy.1 xy.2) flags ntris areas numAreas
  match out.navData with
  | none => (s.1, s.2.1, s.2.2 ++ [xy])
  | some d =>
    let r := addTileStep mal s.1 s.2.1 xy.1 xy.2 d
    (r.1, r.2.1, s.2.2 ++ [xy])

/-- buildTiledNavMeshImpl from Bridging.cpp lines 386-502.  gw and gh are
the outputs of the external rcCalcGridSize call; callocOk, allocNavMeshOk
and initOk are the outcomes of the top-level result allocation, dtAllocNavMesh
and dtNavMesh init; engines gives each tile's engine-call outcomes; mal is
the per-blob malformedness used by the modelled addTile.  The dead store
of BCODE_ERR_ADD_TILE at line 490 is overwritten unconditionally at line
500 and is not tracked. -/
def buildTiledNavMeshImpl (gw gh tileSize flags ntris : Nat)
    (areaArrays : Option (List AreaMarkingData)) (numAreaMeshes : Nat)
    (engines : Nat → Nat → Engine) (mal : Nat → Bool)
    (callocOk allocNavMeshOk initOk : Bool) : Option BindingTileMeshResult :=
  if !callocOk then none else
  -- grid and tile-grid size, lines 414-419
  let tw := tileGridWidth gw tileSize
  let th := tileGridHeight gh tileSize
  let total := tw * th
  -- identifier split and navmesh parameters, lines 421-441
  if !allocNavMeshOk then some ⟨.errMemory, none, 0, total, []⟩ else
  let nm0 : NavMeshState := ⟨maxTiles total, maxPolysPerTile total, []⟩
  if !initOk then some ⟨.errInitTileNavMesh, some nm0, 0, total, []⟩ else
  -- AreaMarkingData array construction, lines 450-460
  let areas : Option (List AreaMarkingData) :=
    match areaArrays with
    | some l => if 0 < numAreaMeshes then some (l.take numAreaMeshes) else none
    | none => none
  -- the build loop, lines 465-496
  let fin := (gridCoords tw th).foldl
    (buildLoopStep flags ntris areas numAreaMeshes engines mal) (nm0, 0, [])
  -- final status, line 500
  some ⟨if 0 < fin.2.1 then .ok else .errBuildTile, some fin.1, fin.2.1, total, fin.2.2⟩

/-- bindingBuildTiledNavMeshWithAreas from Bridging.cpp lines 505-529:
passes everything through to the implementation. -/
def bindingBuildTiledNavMeshWithAreas (gw gh tileSize flags ntris : Nat)
    (areaArrays : Option (List AreaMarkingData)) (numAreaMeshes : Nat)
    (engines : Nat → Nat → Engine) (mal : Nat → Bool)
    (callocOk allocNavMeshOk initOk : Bool) : Option BindingTileMeshResult :=
  buildTiledNavMeshImpl gw gh tileSize flags ntris areaArrays numAreaMeshes
    engines mal callocOk allocNavMeshOk initOk

/-- bindingBuildTiledNavMesh from Bridging.cpp lines 532-553: the
deprecated entry point ignores its areaMeshes, areaCodes and numAreaMeshes
arguments and calls the implementation with null overlay arrays and
overlay count 0. -/
def bindingBuildTiledNavMesh (gw gh tileSize flags ntris : Nat)
    (areaMeshes : Option Nat) (areaCodes : Option Nat) (numAreaMeshes : Nat)
    (engines : Nat → Nat → Engine) (mal : Nat → Bool)
    (callocOk allocNavMeshOk initOk : Bool) : Option BindingTileMeshResult :=
  buildTiledNavMeshImpl gw gh tileSize flags ntris none 0
    engines mal callocOk allocNavMeshOk initOk

/-- NAVMESHSET_MAGIC from Bridging.h line 14: the characters of MSET
packed big-endian into 32 bits. -/
def NAVMESHSET_MAGIC : Nat :=
  'M'.toNat <<< 24 ||| 'S'.toNat <<< 16 ||| 'E'.toNat <<< 8 ||| 'T'.toNat

/-- NAVMESHSET_VERSION from Bridging.h line 15. -/
def NAVMESHSET_VERSION : Nat := 1

/-- The per-slot view of a dtMeshTile as read by the export function:
whether its header is set, its blob size, its blob bytes, and its global
tile reference. -/
structure MeshTile where
  hasHeader : Bool
  dataSize : Nat
  data : List Nat
  ref : Nat
deriving DecidableEq, Repr

/-- The dtNavMesh as read by the export function: an opaque global
parameters record and the tile slots indexed 0 to getMaxTiles - 1 (a null
slot is none). -/
structure DtNavMesh where
  params : Nat
  tiles : List (Option MeshTile)
deriving DecidableEq, Repr

/-- One field written into the export buffer. -/
inductive Chunk where
  | i32 (v : Nat)
  | paramsRec (p : Nat)
  | tileRef (r : Nat)
  | bytes (b : List Nat)
deriving DecidableEq, Repr

/-- The liveness test the export function applies to each slot
(Bridging.cpp lines 576, 592, 605): non-null tile with a header and a
non-zero data size. -/
def tileLive (t : Option MeshTile) : Bool :=
  match t with
  | some tile => tile.hasHeader && tile.dataSize != 0
  | none => false

/-- bindingExportTiledNavMesh from Bridging.cpp lines 565-620: total size
accumulation over the slots, header write (magic, version, live-tile
count, global parameters), then the per-tile records in slot order.  The
null-argument guard of line 567 and a failed malloc map to none. -/
def bindingExportTiledNavMesh (headerSize tileHeaderSize : Nat) (nm : DtNavMesh)
    (mallocOk : Bool) : Option (List Chunk × Nat) :=
  let totalSize := nm.tiles.foldl
    (fun acc t =>
      match t with
      | some tile =>
        if tile.hasHeader && tile.dataSize != 0 then acc + (tileHeaderSize + tile.dataSize)
        else acc
      | none => acc)
    headerSize
  if !mallocOk then none else
  let numTiles := nm.tiles.foldl
    (fun acc t =>
      match t with
      | some tile => if tile.hasHeader && tile.dataSize != 0 then acc + 1 else acc
      | none => acc) 0
  let headerChunks :=
    [Chunk.i32 NAVMESHSET_MAGIC, Chunk.i32 NAVMESHSET_VERSION, Chunk.i32 numTiles,
     Chunk.paramsRec nm.params]
  let tileChunks := nm.tiles.foldl
    (fun acc t =>
      match t with
      | some tile =>
        if tile.hasHeader && tile.dataSize != 0 then
          acc ++ [Chunk.tileRef tile.ref, Chunk.i32 tile.dataSize,
                  Chunk.bytes (tile.data.take tile.dataSize)]
        else acc
      | none => acc) ([] : List Chunk)
  some (headerChunks ++ tileChunks, totalSize)

/-- The live tiles of a navmesh in slot order, per the liveness test of
the export function. -/
def liveTilesOf (nm : DtNavMesh) : List MeshTile :=
  nm.tiles.filterMap (fun t =>
    match t with
    | some tile => if tile.hasHeader && tile.dataSize != 0 then some tile else none
    | none => none)

/-- An engine in which every call succeeds and every triangle passes the
slope classification. -/
def allOkEngine : Engine :=
  ⟨true, true, fun _ => true, true, fun _ _ => true, true, true, true, true, true,
   true, true, true, true, true, true, true, true, some 64⟩

/-- An engine in which every call succeeds but no overlay triangle passes
the slope classification. -/
def steepOverlayEngine : Engine :=
  { allOkEngine with walkableArea := fun _ _ => false }

/-- An engine whose detail-mesh build fails. -/
def detailFailEngine : Engine :=
  { allOkEngine with buildPolyMeshDetail := false }

/-- An assembler with capacity for a single tile and no tiles yet. -/
def emptyAssembler : NavMeshState := ⟨1, 4194304, []⟩

/-- A one-triangle overlay with non-empty vertex and triangle buffers. -/
def oneTriOverlay : AreaMarkingData :=
  ⟨some [⟨0, 0, 0⟩, ⟨1, 0, 0⟩, ⟨0, 0, 1⟩], 3, some [(0, 1, 2)], 1, 5⟩

/-- The adaptive tolerance as the specification states it: the maximum of
10 times the vertical cell size, 5 percent of the heightfield's vertical
range, and 0.1 percent of the absolute minimum height, raised to at least
1 when the minimum height exceeds 100. -/
def toleranceSpec (chf : CompactHF) : ℚ :=
  let t := max (10 * chf.ch) (max (0.05 * (chf.bmaxY - chf.bminY)) (0.001 * |chf.bminY|))
  if 100 < chf.bminY then max t 1 else t

/-- The trace t contains the contiguous segment seg. -/
def containsSeg (t seg : List Op) : Prop := ∃ u v, t = u ++ seg ++ v

/-! ### Supporting lemmas for the identifier bit split -/

theorem or_shift_testBit (v s i : Nat) :
    (v ||| v >>> s).testBit i = (v.testBit i || v.testBit (s + i)) := by
  simp [Nat.testBit_lor, Nat.testBit_shiftRight]

theorem cover_step {x k c : Nat}
    (h : ∀ i, k + 1 ≤ i + c → i ≤ k → x.testBit i = true) :
    ∀ i, k + 1 ≤ i + (c + c) → i ≤ k → (x ||| x >>> c).testBit i = true := by
  intro i h1 h2
  rw [or_shift_testBit]
  by_cases hc : k + 1 ≤ i + c
  · rw [h i hc h2]
    simp
  · rw [h (c + i) (by omega) (by omega)]
    simp

theorem testBit_log2_self {w : Nat} (hw : w ≠ 0) : w.testBit w.log2 = true := by
  have h1 : 2 ^ w.log2 ≤ w := Nat.log2_self_le hw
  have h2 : w < 2 ^ (w.log2 + 1) := Nat.lt_log2_self
  have hdiv : w / 2 ^ w.log2 = 1 := by
    apply Nat.div_eq_of_lt_le (by simpa using h1)
    simpa [Nat.two_mul, Nat.pow_succ, Nat.mul_comm] using h2
  rw [Nat.testBit_to_div_mod, hdiv]
  rfl

theorem shiftRight_lt_of_lt {v n s : Nat} (hv : v < 2 ^ n) : v >>> s < 2 ^ n :=
  Nat.lt_of_le_of_lt (by rw [Nat.shiftRight_eq_div_pow]; exact Nat.div_le_self _ _) hv

theorem smear_lt {w n : Nat} (hw : w < 2 ^ n) : smear w < 2 ^ n := by
  unfold smear
  have l1 : w ||| w >>> 1 < 2 ^ n := Nat.or_lt_two_pow hw (shiftRight_lt_of_lt hw)
  have l2 : (w ||| w >>> 1) ||| (w ||| w >>> 1) >>> 2 < 2 ^ n :=
    Nat.or_lt_two_pow l1 (shiftRight_lt_of_lt l1)
  have l3 : ((w ||| w >>> 1) ||| (w ||| w >>> 1) >>> 2) |||
      ((w ||| w >>> 1) ||| (w ||| w >>> 1) >>> 2) >>> 4 < 2 ^ n :=
    Nat.or_lt_two_pow l2 (shiftRight_lt_of_lt l2)
  have l4 : (((w ||| w >>> 1) ||| (w ||| w >>> 1) >>> 2) |||
      ((w ||| w >>> 1) ||| (w ||| w >>> 1) >>> 2) >>> 4) |||
      (((w ||| w >>> 1) ||| (w ||| w >>> 1) >>> 2) |||
      ((w ||| w >>> 1) ||| (w ||| w >>> 1) >>> 2) >>> 4) >>> 8 < 2 ^ n :=
    Nat.or_lt_two_pow l3 (shiftRight_lt_of_lt l3)
  exact Nat.or_lt_two_pow l4 (shiftRight_lt_of_lt l4)

theorem smear_testBit_of_le {w : Nat} (hw : w ≠ 0) (hk : w.log2 ≤ 31) :
    ∀ i, i ≤ w.log2 → (smear w).testBit i = true := by
  have h0 : ∀ i, w.log2 + 1 ≤ i + 1 → i ≤ w.log2 → w.testBit i = true := by
    intro i hi1 hi2
    have : i = w.log2 := by omega
    rw [this]
    exact testBit_log2_self hw
  have h1 : ∀ i, w.log2 + 1 ≤ i + 2 → i ≤ w.log2 →
      (w ||| w >>> 1).testBit i = true := by
    intro i hi1 hi2
    exact cover_step h0 i (by omega) hi2
  have h2 : ∀ i, w.log2 + 1 ≤ i + 4 → i ≤ w.log2 →
      ((w ||| w >>> 1) ||| (w ||| w >>> 1) >>> 2).testBit i = true := by
    intro i hi1 hi2
    exact cover_step h1 i (by omega) hi2
  have h3 : ∀ i, w.log2 + 1 ≤ i + 8 → i ≤ w.log2 →
      (((w ||| w >>> 1) ||| (w ||| w >>> 1) >>> 2) |||
        ((w ||| w >>> 1) ||| (w ||| w >>> 1) >>> 2) >>> 4).testBit i = true := by
    intro i hi1 hi2
    exact cover_step h2 i (by omega) hi2
  have h4 : ∀ i, w.log2 + 1 ≤ i + 16 → i ≤ w.log2 →
      ((((w ||| w >>> 1) ||| (w ||| w >>> 1) >>> 2) |||
         ((w ||| w >>> 1) ||| (w ||| w >>> 1) >>> 2) >>> 4) |||
        (((w ||| w >>> 1) ||| (w ||| w >>> 1) >>> 2) |||
         ((w ||| w >>> 1) ||| (w ||| w >>> 1) >>> 2) >>> 4) >>> 8).testBit i = true := by
    intro i hi1 hi2
    exact cover_step h3 i (by omega) hi2
  have h5 : ∀ i, w.log2 + 1 ≤ i + 32 → i ≤ w.log2 →
      (((((w ||| w >>> 1) ||| (w ||| w >>> 1) >>> 2) |||
          ((w ||| w >>> 1) ||| (w ||| w >>> 1) >>> 2) >>> 4) |||
         (((w ||| w >>> 1) ||| (w ||| w >>> 1) >>> 2) |||
          ((w ||| w >>> 1) ||| (w ||| w >>> 1) >>> 2) >>> 4) >>> 8) |||
        ((((w ||| w >>> 1) ||| (w ||| w >>> 1) >>> 2) |||
          ((w ||| w >>> 1) ||| (w ||| w >>> 1) >>> 2) >>> 4) |||
         (((w ||| w >>> 1) ||| (w ||| w >>> 1) >>> 2) |||
          ((w ||| w >>> 1) ||| (w ||| w >>> 1) >>> 2) >>> 4) >>> 8) >>> 16).testBit i
        = true := by
    intro i hi1 hi2
    exact cover_step h4 i (by omega) hi2
  intro i hi
  exact h5 i (by omega) hi

theorem smear_eq {w : Nat} (hw : w ≠ 0) (hw32 : w < 2 ^ 32) :
    smear w = 2 ^ (w.log2 + 1) - 1 := by
  have hk : w.log2 ≤ 31 := by
    have hle : 2 ^ w.log2 ≤ w := Nat.log2_self_le hw
    by_contra hcon
    have : 2 ^ 32 ≤ 2 ^ w.log2 := Nat.pow_le_pow_right (by norm_num) (by omega)
    omega
  have hub : smear w < 2 ^ (w.log2 + 1) := smear_lt Nat.lt_log2_self
  apply Nat.eq_of_testBit_eq
  intro i
  rw [Nat.testBit_two_pow_sub_one]
  by_cases hi : i ≤ w.log2
  · rw [smear_testBit_of_le hw hk i hi]
    have : i < w.log2 + 1 := by omega
    simp [this]
  · have h1 : smear w < 2 ^ i :=
      lt_of_lt_of_le hub (Nat.pow_le_pow_right (by norm_num) (by omega))
    rw [Nat.testBit_lt_two_pow h1]
    have : ¬ (i < w.log2 + 1) := by omega
    simp [this]

theorem nextPow2_eq {T : Nat} (h1 : 1 ≤ T) (h2 : T ≤ 2 ^ 31) :
    nextPow2 T = 2 ^ Nat.clog 2 T := by
  rcases Nat.lt_or_ge T 2 with hT1 | hT2
  · have : T = 1 := by omega
    rw [this, Nat.clog_one_right]
    decide
  · show (smear ((T + (2 ^ 32 - 1)) % 2 ^ 32) + 1) % 2 ^ 32 = 2 ^ Nat.clog 2 T
    have e31 : (2 : Nat) ^ 31 = 2147483648 := by norm_num
    have e32 : (2 : Nat) ^ 32 = 4294967296 := by norm_num
    have hpred : (T + (2 ^ 32 - 1)) % 2 ^ 32 = T - 1 := by
      have hsplit : T + (2 ^ 32 - 1) = (T - 1) + 1 * 2 ^ 32 := by omega
      rw [hsplit, Nat.add_mul_mod_self_right]
      exact Nat.mod_eq_of_lt (by omega)
    rw [hpred]
    have hw0 : T - 1 ≠ 0 := by omega
    have hw32 : T - 1 < 2 ^ 32 := by omega
    rw [smear_eq hw0 hw32]
    have hlow : 2 ^ (T - 1).log2 ≤ T - 1 := Nat.log2_self_le hw0
    have hhigh : T - 1 < 2 ^ ((T - 1).log2 + 1) := Nat.lt_log2_self
    have hk30 : (T - 1).log2 ≤ 30 := by
      by_contra hcon
      have : 2 ^ 31 ≤ 2 ^ (T - 1).log2 := Nat.pow_le_pow_right (by norm_num) (by omega)
      omega
    have hexp : 2 ^ ((T - 1).log2 + 1) < 2 ^ 32 :=
      Nat.pow_lt_pow_right (by norm_num) (by omega)
    have hone : 1 ≤ 2 ^ ((T - 1).log2 + 1) := Nat.one_le_two_pow
    have hc1 : Nat.clog 2 T ≤ (T - 1).log2 + 1 :=
      (Nat.le_pow_iff_clog_le (by norm_num)).mp (by omega)
    have hc2 : ¬ (Nat.clog 2 T ≤ (T - 1).log2) := by
      intro hcon
      have := (Nat.le_pow_iff_clog_le (b := 2) (by norm_num)).mpr hcon
      omega
    have heq : (T - 1).log2 + 1 = Nat.clog 2 T := by omega
    rw [Nat.sub_add_cancel hone, Nat.mod_eq_of_lt hexp, heq]

set_option maxRecDepth 100000 in
theorem ilog2_two_pow : ∀ k, k < 32 → ilog2 (2 ^ k) = k := by decide

theorem log2_two_pow {c : Nat} : Nat.log2 (2 ^ c) = c := by
  rw [Nat.log2_eq_log_two, Nat.log_pow (by norm_num)]

/-- C1: for every total tile count T computed by the build (bounded by the
positive range of a 32-bit int), the identifier split satisfies tileBits =
min(14, floor(log2(nextPowerOfTwo(T)))) and polyBits = 22 - tileBits, so
tileBits + polyBits = 22 always, maxTiles = 2^tileBits and maxPolysPerTile
= 2^polyBits, with maxTiles at least T whenever T fits in 2^14; and for
T = 0 the derived quadruple equals the one derived for T = 1. -/
theorem C1_identifier_bit_split (T : Nat) (hT : T ≤ 2 ^ 31) :
    tileBits T = min 14 (Nat.log2 (nextPow2 T)) ∧
    polyBits T = 22 - tileBits T ∧
    tileBits T + polyBits T = 22 ∧
    maxTiles T = 2 ^ tileBits T ∧
    maxPolysPerTile T = 2 ^ polyBits T ∧
    (T ≤ 2 ^ 14 → T ≤ maxTiles T) ∧
    (tileBits 0 = tileBits 1 ∧ polyBits 0 = polyBits 1 ∧
     maxTiles 0 = maxTiles 1 ∧ maxPolysPerTile 0 = maxPolysPerTile 1) := by
  have hmin : tileBits T = min (ilog2 (nextPow2 T)) 14 := by
    unfold tileBits
    have h14 : ¬ (14 < min (ilog2 (nextPow2 T)) 14) := by
      have := Nat.min_le_right (ilog2 (nextPow2 T)) 14
      omega
    simp [h14]
  have hilog : ilog2 (nextPow2 T) = Nat.log2 (nextPow2 T) := by
    by_cases hT0 : T = 0
    · have h0 : nextPow2 0 = 0 := by decide
      rw [hT0, h0, Nat.log2_zero]
      decide
    · have h1 : 1 ≤ T := by omega
      rw [nextPow2_eq h1 hT]
      have hc : Nat.clog 2 T ≤ 31 := (Nat.le_pow_iff_clog_le (by norm_num)).mp hT
      rw [ilog2_two_pow _ (by omega), log2_two_pow]
  have htb14 : tileBits T ≤ 14 := by
    rw [hmin]
    exact Nat.min_le_right _ _
  refine ⟨?_, rfl, ?_, ?_, ?_, ?_, ?_⟩
  · rw [hmin, hilog, Nat.min_comm]
  · unfold polyBits
    omega
  · rw [maxTiles, Nat.shiftLeft_eq, one_mul]
  · rw [maxPolysPerTile, Nat.shiftLeft_eq, one_mul]
  · intro h14
    by_cases hT0 : T = 0
    · rw [hT0]
      exact Nat.zero_le _
    · have h1 : 1 ≤ T := by omega
      have hc14 : Nat.clog 2 T ≤ 14 := (Nat.le_pow_iff_clog_le (by norm_num)).mp h14
      have hiq : ilog2 (nextPow2 T) = Nat.clog 2 T := by
        rw [nextPow2_eq h1 hT, ilog2_two_pow _ (by omega)]
      have htb : tileBits T = Nat.clog 2 T := by
        rw [hmin, hiq]
        omega
      rw [maxTiles, Nat.shiftLeft_eq, one_mul, htb]
      exact Nat.le_pow_clog (by norm_num) _
  · exact ⟨by decide, by decide, by decide, by decide⟩

/-- Witness for C1 at the concrete tile count 5. -/
theorem C1_identifier_bit_split_witness :
    (5 : Nat) ≤ 2 ^ 31 ∧
    (tileBits 5 = min 14 (Nat.log2 (nextPow2 5)) ∧
     polyBits 5 = 22 - tileBits 5 ∧
     tileBits 5 + polyBits 5 = 22 ∧
     maxTiles 5 = 2 ^ tileBits 5 ∧
     maxPolysPerTile 5 = 2 ^ polyBits 5 ∧
     ((5 : Nat) ≤ 2 ^ 14 → (5 : Nat) ≤ maxTiles 5) ∧
     (tileBits 0 = tileBits 1 ∧ polyBits 0 = polyBits 1 ∧
      maxTiles 0 = maxTiles 1 ∧ maxPolysPerTile 0 = maxPolysPerTile 1)) :=
  ⟨by norm_num, C1_identifier_bit_split 5 (by norm_num)⟩

/-! ### The tile-grid planner -/

theorem tileGridWidth_eq_ceil {gw ts : Nat} (hts : 0 < ts) :
    (tileGridWidth gw ts : ℤ) = ⌈(gw : ℚ) / (ts : ℚ)⌉ := by
  have hq : (0 : ℚ) < (ts : ℚ) := by exact_mod_cast hts
  have hcd : tileGridWidth gw ts = gw ⌈/⌉ ts := rfl
  have hnn : (0 : ℤ) ≤ ⌈(gw : ℚ) / (ts : ℚ)⌉ := Int.ceil_nonneg (by positivity)
  have hcast : ((⌈(gw : ℚ) / (ts : ℚ)⌉.toNat : ℤ)) = ⌈(gw : ℚ) / (ts : ℚ)⌉ :=
    Int.toNat_of_nonneg hnn
  apply le_antisymm
  · rw [← hcast]
    have hle : (gw : ℚ) / (ts : ℚ) ≤ ((⌈(gw : ℚ) / (ts : ℚ)⌉.toNat : Nat) : ℚ) := by
      have h := Int.le_ceil ((gw : ℚ) / (ts : ℚ))
      rw [← hcast] at h
      exact_mod_cast h
    have hmul : (gw : ℚ) ≤ ((⌈(gw : ℚ) / (ts : ℚ)⌉.toNat : Nat) : ℚ) * (ts : ℚ) :=
      (div_le_iff₀ hq).mp hle
    have hnat : gw ≤ ⌈(gw : ℚ) / (ts : ℚ)⌉.toNat * ts := by exact_mod_cast hmul
    have hfin : gw ⌈/⌉ ts ≤ ⌈(gw : ℚ) / (ts : ℚ)⌉.toNat :=
      (ceilDiv_le_iff_le_smul hts).mpr (by rw [smul_eq_mul, Nat.mul_comm]; exact hnat)
    rw [hcd]
    exact_mod_cast hfin
  · apply Int.ceil_le.mpr
    have hsm : gw ≤ ts * (gw ⌈/⌉ ts) := le_smul_ceilDiv hts
    have hqle : (gw : ℚ) ≤ (tileGridWidth gw ts : ℚ) * (ts : ℚ) := by
      rw [hcd]
      exact_mod_cast (by rw [Nat.mul_comm]; exact hsm : gw ≤ (gw ⌈/⌉ ts) * ts)
    rw [div_le_iff₀ hq]
    push_cast
    exact hqle

/-- C6: the tile-grid dimensions are the ceilings of grid size over tile
size, the tile count is their product, and each tile's world bounds are
offset from the grid origin by (x, y) times tileSize times cellSize on the
horizontal axes, with horizontal extent tileSize times cellSize, while the
vertical extent spans the full world bounding box height. -/
theorem C6_tile_grid_planner (gw gh ts : Nat) (hts : 0 < ts)
    (bmin bmax : Vec3) (tx ty : ℤ) (tileSize cellSize : ℚ) :
    (tileGridWidth gw ts : ℤ) = ⌈(gw : ℚ) / (ts : ℚ)⌉ ∧
    (tileGridHeight gh ts : ℤ) = ⌈(gh : ℚ) / (ts : ℚ)⌉ ∧
    totalTilesOf gw gh ts = tileGridWidth gw ts * tileGridHeight gh ts ∧
    (bindingCalcTileBounds bmin bmax tx ty tileSize cellSize).1.x
      = bmin.x + tx * (tileSize * cellSize) ∧
    (bindingCalcTileBounds bmin bmax tx ty tileSize cellSize).1.z
      = bmin.z + ty * (tileSize * cellSize) ∧
    (bindingCalcTileBounds bmin bmax tx ty tileSize cellSize).2.x
      - (bindingCalcTileBounds bmin bmax tx ty tileSize cellSize).1.x
      = tileSize * cellSize ∧
    (bindingCalcTileBounds bmin bmax tx ty tileSize cellSize).2.z
      - (bindingCalcTileBounds bmin bmax tx ty tileSize cellSize).1.z
      = tileSize * cellSize ∧
    (bindingCalcTileBounds bmin bmax tx ty tileSize cellSize).1.y = bmin.y ∧
    (bindingCalcTileBounds bmin bmax tx ty tileSize cellSize).2.y = bmax.y := by
  refine ⟨tileGridWidth_eq_ceil hts, tileGridWidth_eq_ceil hts, rfl, ?_, ?_, ?_, ?_, rfl, rfl⟩
  · simp [bindingCalcTileBounds]
  · simp [bindingCalcTileBounds]
  · simp [bindingCalcTileBounds]
    ring
  · simp [bindingCalcTileBounds]
    ring

/-- Witness for C6 at a concrete grid (10 by 7 cells, tile size 3) and a
concrete tile coordinate. -/
theorem C6_tile_grid_planner_witness :
    (0 : Nat) < 3 ∧
    ((tileGridWidth 10 3 : ℤ) = ⌈(10 : ℚ) / (3 : ℚ)⌉ ∧
     (tileGridHeight 7 3 : ℤ) = ⌈(7 : ℚ) / (3 : ℚ)⌉ ∧
     totalTilesOf 10 7 3 = tileGridWidth 10 3 * tileGridHeight 7 3 ∧
     (bindingCalcTileBounds ⟨0, 0, 0⟩ ⟨9, 4, 9⟩ 1 2 3 (3/10)).1.x
       = (0 : ℚ) + 1 * (3 * (3/10)) ∧
     (bindingCalcTileBounds ⟨0, 0, 0⟩ ⟨9, 4, 9⟩ 1 2 3 (3/10)).1.z
       = (0 : ℚ) + 2 * (3 * (3/10)) ∧
     (bindingCalcTileBounds ⟨0, 0, 0⟩ ⟨9, 4, 9⟩ 1 2 3 (3/10)).2.x
       - (bindingCalcTileBounds ⟨0, 0, 0⟩ ⟨9, 4, 9⟩ 1 2 3 (3/10)).1.x = 3 * (3/10) ∧
     (bindingCalcTileBounds ⟨0, 0, 0⟩ ⟨9, 4, 9⟩ 1 2 3 (3/10)).2.z
       - (bindingCalcTileBounds ⟨0, 0, 0⟩ ⟨9, 4, 9⟩ 1 2 3 (3/10)).1.z = 3 * (3/10) ∧
     (bindingCalcTileBounds ⟨0, 0, 0⟩ ⟨9, 4, 9⟩ 1 2 3 (3/10)).1.y = (0 : ℚ) ∧
     (bindingCalcTileBounds ⟨0, 0, 0⟩ ⟨9, 4, 9⟩ 1 2 3 (3/10)).2.y = (4 : ℚ)) :=
  ⟨by norm_num, C6_tile_grid_planner 10 7 3 (by norm_num) ⟨0, 0, 0⟩ ⟨9, 4, 9⟩ 1 2 3 (3/10)⟩

/-! ### The area marker tolerance -/

/-- C7: every mark call emitted for an overlay triangle uses the vertical
band from hmin - tolerance to hmax + tolerance, where hmin and hmax are
the minimum and maximum height of the triangle's own three vertices and
the tolerance is the adaptive formula of toleranceSpec. -/
theorem C7_adaptive_tolerance (chf : CompactHF) (areas : List AreaMarkingData)
    (numAreas : Nat) (c : MarkCall) (hc : c ∈ markAreasFromMesh chf areas numAreas) :
    ∃ v0 v1 v2 : Vec3, c.verts = [v0, v1, v2] ∧
      c.hmin = min (min v0.y v1.y) v2.y - toleranceSpec chf ∧
      c.hmax = max (max v0.y v1.y) v2.y + toleranceSpec chf := by
  unfold markAreasFromMesh at hc
  rw [List.mem_flatMap] at hc
  obtain ⟨area, hmem, hc⟩ := hc
  split at hc
  · rename_i vb tb hv ht
    split at hc
    · simp at hc
    · rw [List.mem_map] at hc
      obtain ⟨j, hj, hceq⟩ := hc
      subst hceq
      refine ⟨vb.getD (tb.getD j (0, 0, 0)).1 ⟨0, 0, 0⟩,
              vb.getD (tb.getD j (0, 0, 0)).2.1 ⟨0, 0, 0⟩,
              vb.getD (tb.getD j (0, 0, 0)).2.2 ⟨0, 0, 0⟩, rfl, ?_, ?_⟩
      · simp only [toleranceSpec]
        rw [mul_comm chf.ch 10, mul_comm (chf.bmaxY - chf.bminY) 0.05,
            mul_comm |chf.bminY| 0.001]
      · simp only [toleranceSpec]
        rw [mul_comm chf.ch 10, mul_comm (chf.bmaxY - chf.bminY) 0.05,
            mul_comm |chf.bminY| 0.001]
  · simp at hc

/-- Witness for C7 at a concrete heightfield and overlay: the emitted call
for the overlay triangle at height 0 with vertical cell size 1/10 and
heightfield Y range 10 carries the band from -1 to 1. -/
theorem C7_adaptive_tolerance_witness :
    (⟨[⟨0, 0, 0⟩, ⟨1, 0, 0⟩, ⟨0, 0, 1⟩], -1, 1, 5⟩ : MarkCall)
        ∈ markAreasFromMesh ⟨0, 10, 1/10⟩ [oneTriOverlay] 1 ∧
    (∃ v0 v1 v2 : Vec3,
      (⟨[⟨0, 0, 0⟩, ⟨1, 0, 0⟩, ⟨0, 0, 1⟩], -1, 1, 5⟩ : MarkCall).verts = [v0, v1, v2] ∧
      (⟨[⟨0, 0, 0⟩, ⟨1, 0, 0⟩, ⟨0, 0, 1⟩], -1, 1, 5⟩ : MarkCall).hmin
        = min (min v0.y v1.y) v2.y - toleranceSpec ⟨0, 10, 1/10⟩ ∧
      (⟨[⟨0, 0, 0⟩, ⟨1, 0, 0⟩, ⟨0, 0, 1⟩], -1, 1, 5⟩ : MarkCall).hmax
        = max (max v0.y v1.y) v2.y + toleranceSpec ⟨0, 10, 1/10⟩) :=
  by
  have hm : (⟨[⟨0, 0, 0⟩, ⟨1, 0, 0⟩, ⟨0, 0, 1⟩], -1, 1, 5⟩ : MarkCall)
      ∈ markAreasFromMesh ⟨0, 10, 1/10⟩ [oneTriOverlay] 1 := by
    norm_num [markAreasFromMesh, oneTriOverlay]
  exact ⟨hm, C7_adaptive_tolerance ⟨0, 10, 1/10⟩ [oneTriOverlay] 1 _ hm⟩

/-! ### The single-tile pipeline -/

theorem rasterizeAreasAux_eq (e : Engine) (l : List (Nat × AreaMarkingData))
    (live : List Res) (tr : List Op) :
    rasterizeAreasAux e l live tr = (l.foldl areasLiveStep live, tr ++ areasTrace e l) := by
  induction l generalizing live tr with
  | nil => simp [rasterizeAreasAux, areasTrace]
  | cons p rest ih =>
    obtain ⟨i, a⟩ := p
    by_cases h : areaValid a = true
    · simp [rasterizeAreasAux, h, ih, areasTrace, areasLiveStep, List.append_assoc]
    · simp only [Bool.not_eq_true] at h
      simp [rasterizeAreasAux, h, ih, areasTrace, areasLiveStep]

theorem foldl_areasLiveStep_hf_tri (l : List (Nat × AreaMarkingData)) :
    l.foldl areasLiveStep [Res.heightfield, Res.triareas] = [Res.heightfield, Res.triareas] := by
  induction l with
  | nil => rfl
  | cons p rest ih =>
    rw [List.foldl_cons]
    have hstep : areasLiveStep [Res.heightfield, Res.triareas] p
        = [Res.heightfield, Res.triareas] := by
      unfold areasLiveStep
      split
      · simp [List.erase_cons]
      · rfl
    rw [hstep, ih]

theorem partitionStep_inl_inr (e : Engine) (flags : Nat) (tr : List Op) :
    (∃ ex, partitionStep e flags tr = Sum.inl (tr ++ ex)) ∨
    (∃ ex, partitionStep e flags tr = Sum.inr (tr ++ ex)) := by
  unfold partitionStep
  simp only [PARTITION_MASK, PARTITION_WATERSHED, PARTITION_MONOTONE]
  by_cases h8 : flags &&& 24 = 8 <;> by_cases h16 : flags &&& 24 = 16 <;>
    cases hd : e.buildDistanceField <;> cases hr : e.buildRegions <;>
      cases hm : e.buildRegionsMonotone <;> cases hl : e.buildLayerRegions <;>
        first
        | omega
        | simp [h8, h16, hd, hr, hm, hl, List.append_assoc]

set_option maxHeartbeats 1000000 in
theorem buildTileMeshPost_live (e : Engine) (flags : Nat) (tr : List Op) :
    (buildTileMeshPost e flags [Res.compactHeightfield] tr).live = [] := by
  unfold buildTileMeshPost
  rcases partitionStep_inl_inr e flags tr with ⟨ex, h⟩ | ⟨ex, h⟩ <;> rw [h]
  · simp [List.erase_cons]
  · repeat' split
    all_goals simp_all [List.erase_cons]

set_option maxHeartbeats 1000000 in
theorem buildTileMeshPost_size (e : Engine) (flags : Nat) (tr : List Op) :
    (buildTileMeshPost e flags [Res.compactHeightfield] tr).dataSize
      = (buildTileMeshPost e flags [Res.compactHeightfield] tr).navData.getD 0 := by
  unfold buildTileMeshPost
  rcases partitionStep_inl_inr e flags tr with ⟨ex, h⟩ | ⟨ex, h⟩ <;> rw [h]
  · simp
  · repeat' split
    all_goals simp_all

set_option maxHeartbeats 2000000 in
theorem buildTileMesh_live (e : Engine) (flags ntris : Nat)
    (areas : Option (List AreaMarkingData)) (numAreas : Nat) :
    (buildTileMesh e flags ntris areas numAreas).live = [] := by
  unfold buildTileMesh
  repeat' split
  all_goals
    first
    | (simp_all [rasterizeAreasAux_eq, foldl_areasLiveStep_hf_tri, List.erase_cons]; done)
    | (simp [rasterizeAreasAux_eq, foldl_areasLiveStep_hf_tri, List.erase_cons]
       exact buildTileMeshPost_live e flags _)

set_option maxHeartbeats 2000000 in
theorem buildTileMesh_size (e : Engine) (flags ntris : Nat)
    (areas : Option (List AreaMarkingData)) (numAreas : Nat) :
    (buildTileMesh e flags ntris areas numAreas).dataSize
      = (buildTileMesh e flags ntris areas numAreas).navData.getD 0 := by
  unfold buildTileMesh
  repeat' split
  all_goals
    first
    | (simp_all [rasterizeAreasAux_eq, foldl_areasLiveStep_hf_tri, List.erase_cons]; done)
    | (simp [rasterizeAreasAux_eq, foldl_areasLiveStep_hf_tri, List.erase_cons]
       exact buildTileMeshPost_size e flags _)

/-- C9: on every exit path of the single-tile build — success and each
failure — every intermediate allocated up to that point is released before
returning, and on any step's failure the function returns absence with
output size 0; on success the output size is the packed blob size. -/
theorem C9_cleanup (e : Engine) (flags ntris : Nat)
    (areas : Option (List AreaMarkingData)) (numAreas : Nat) :
    (buildTileMesh e flags ntris areas numAreas).live = [] ∧
    ((buildTileMesh e flags ntris areas numAreas).navData = none →
      (buildTileMesh e flags ntris areas numAreas).dataSize = 0) ∧
    (∀ d, (buildTileMesh e flags ntris areas numAreas).navData = some d →
      (buildTileMesh e flags ntris areas numAreas).dataSize = d) := by
  refine ⟨buildTileMesh_live e flags ntris areas numAreas, ?_, ?_⟩
  · intro h
    rw [buildTileMesh_size e flags ntris areas numAreas, h]
    rfl
  · intro d h
    rw [buildTileMesh_size e flags ntris areas numAreas, h]
    rfl

/-- Witness for C9 at a concrete failing engine: the detail-mesh build
fails, everything is released and the result is absent with size 0. -/
theorem C9_cleanup_witness :
    (buildTileMesh detailFailEngine 8 2 none 0).live = [] ∧
    ((buildTileMesh detailFailEngine 8 2 none 0).navData = none →
      (buildTileMesh detailFailEngine 8 2 none 0).dataSize = 0) ∧
    (∀ d, (buildTileMesh detailFailEngine 8 2 none 0).navData = some d →
      (buildTileMesh detailFailEngine 8 2 none 0).dataSize = d) :=
  C9_cleanup detailFailEngine 8 2 none 0

theorem mem_areasTrace {e : Engine} {l : List (Nat × AreaMarkingData)} {o : Op}
    (ho : o ∈ areasTrace e l) :
    (∃ i tf, o = Op.markWalkableTrianglesArea i tf) ∨
    (∃ i tf, o = Op.rasterizeTrianglesArea i tf) := by
  unfold areasTrace at ho
  rw [List.mem_flatMap] at ho
  obtain ⟨p, hp, ho⟩ := ho
  revert ho
  split
  · intro ho
    simp only [List.mem_cons, List.not_mem_nil, or_false] at ho
    rcases ho with h | h
    · exact Or.inl ⟨_, _, h⟩
    · exact Or.inr ⟨_, _, h⟩
  · intro ho
    simp at ho

theorem buildDistanceField_not_mem_areasTrace {e : Engine}
    {l : List (Nat × AreaMarkingData)} : Op.buildDistanceField ∉ areasTrace e l := by
  intro h
  rcases mem_areasTrace h with ⟨i, tf, h⟩ | ⟨i, tf, h⟩ <;> cases h

theorem buildRegionsMonotone_not_mem_areasTrace {e : Engine}
    {l : List (Nat × AreaMarkingData)} : Op.buildRegionsMonotone ∉ areasTrace e l := by
  intro h
  rcases mem_areasTrace h with ⟨i, tf, h⟩ | ⟨i, tf, h⟩ <;> cases h

theorem buildLayerRegions_not_mem_areasTrace {e : Engine}
    {l : List (Nat × AreaMarkingData)} : Op.buildLayerRegions ∉ areasTrace e l := by
  intro h
  rcases mem_areasTrace h with ⟨i, tf, h⟩ | ⟨i, tf, h⟩ <;> cases h

set_option maxHeartbeats 2000000 in
theorem buildTileMeshPost_partition (e : Engine) (flags : Nat) (live : List Res)
    (tr : List Op)
    (hw : Op.buildDistanceField ∉ tr) (hm : Op.buildRegionsMonotone ∉ tr)
    (hl : Op.buildLayerRegions ∉ tr) :
    (watershedApplied (buildTileMeshPost e flags live tr).trace ↔
        flags &&& PARTITION_MASK = PARTITION_WATERSHED) ∧
    (monotoneApplied (buildTileMeshPost e flags live tr).trace ↔
        flags &&& PARTITION_MASK = PARTITION_MONOTONE) ∧
    (layerApplied (buildTileMeshPost e flags live tr).trace ↔
        (flags &&& PARTITION_MASK ≠ PARTITION_WATERSHED ∧
         flags &&& PARTITION_MASK ≠ PARTITION_MONOTONE)) ∧
    (flags &&& PARTITION_MASK = PARTITION_WATERSHED →
      (e.buildDistanceField = false ∨ e.buildRegions = false) →
      (buildTileMeshPost e flags live tr).navData = none) ∧
    (flags &&& PARTITION_MASK = PARTITION_MONOTONE → e.buildRegionsMonotone = false →
      (buildTileMeshPost e flags live tr).navData = none) ∧
    (flags &&& PARTITION_MASK ≠ PARTITION_WATERSHED →
      flags &&& PARTITION_MASK ≠ PARTITION_MONOTONE → e.buildLayerRegions = false →
      (buildTileMeshPost e flags live tr).navData = none) := by
  unfold buildTileMeshPost partitionStep
  simp only [PARTITION_MASK, PARTITION_WATERSHED, PARTITION_MONOTONE] at *
  by_cases h8 : flags &&& 24 = 8 <;> by_cases h16 : flags &&& 24 = 16 <;>
    first
    | omega
    | (simp only [h8, h16]
       cases hd : e.buildDistanceField <;> cases hr : e.buildRegions <;>
         cases hmo : e.buildRegionsMonotone <;> cases hla : e.buildLayerRegions <;>
           (try simp_all [watershedApplied, monotoneApplied, layerApplied]) <;>
             (repeat' split) <;>
               (try simp_all [watershedApplied, monotoneApplied, layerApplied]))

set_option maxHeartbeats 2000000 in
theorem buildTileMesh_eq_post (e : Engine) (flags ntris numAreas : Nat)
    (areas : Option (List AreaMarkingData))
    (h1 : e.allocHeightfield = true) (h2 : e.createHeightfield = true)
    (h3 : e.rasterizeBase = true) (h4 : e.allocCompactHeightfield = true)
    (h5 : e.buildCompactHeightfield = true) (h6 : e.erodeWalkableArea = true) :
    ∃ tr0, buildTileMesh e flags ntris areas numAreas
        = buildTileMeshPost e flags [Res.compactHeightfield] tr0 ∧
      Op.buildDistanceField ∉ tr0 ∧ Op.buildRegionsMonotone ∉ tr0 ∧
      Op.buildLayerRegions ∉ tr0 := by
  unfold buildTileMesh
  simp [h1, h2, h3, h4, h5, h6, rasterizeAreasAux_eq, foldl_areasLiveStep_hf_tri,
    List.erase_cons]
  repeat' split
  all_goals
    refine ⟨_, rfl, ?_, ?_, ?_⟩ <;>
      simp [buildDistanceField_not_mem_areasTrace, buildRegionsMonotone_not_mem_areasTrace,
        buildLayerRegions_not_mem_areasTrace]

/-- C2 amended: once the tile build reaches the partition step, the
watershed policy is applied exactly when the masked partition field of the
flags equals the watershed bit — so watershed requires the watershed bit
set and the monotone bit clear — the monotone policy exactly when the
field equals the monotone bit, and the layer policy in the remaining
cases, including when both partition bits are set; failure of the chosen
policy makes buildTileMesh return absence. -/
theorem C2_partition_policy (e : Engine) (flags ntris numAreas : Nat)
    (areas : Option (List AreaMarkingData))
    (h1 : e.allocHeightfield = true) (h2 : e.createHeightfield = true)
    (h3 : e.rasterizeBase = true) (h4 : e.allocCompactHeightfield = true)
    (h5 : e.buildCompactHeightfield = true) (h6 : e.erodeWalkableArea = true) :
    (watershedApplied (buildTileMesh e flags ntris areas numAreas).trace ↔
        flags &&& PARTITION_MASK = PARTITION_WATERSHED) ∧
    (monotoneApplied (buildTileMesh e flags ntris areas numAreas).trace ↔
        flags &&& PARTITION_MASK = PARTITION_MONOTONE) ∧
    (layerApplied (buildTileMesh e flags ntris areas numAreas).trace ↔
        (flags &&& PARTITION_MASK ≠ PARTITION_WATERSHED ∧
         flags &&& PARTITION_MASK ≠ PARTITION_MONOTONE)) ∧
    (flags &&& PARTITION_MASK = PARTITION_WATERSHED →
      (e.buildDistanceField = false ∨ e.buildRegions = false) →
      (buildTileMesh e flags ntris areas numAreas).navData = none) ∧
    (flags &&& PARTITION_MASK = PARTITION_MONOTONE → e.buildRegionsMonotone = false →
      (buildTileMesh e flags ntris areas numAreas).navData = none) ∧
    (flags &&& PARTITION_MASK ≠ PARTITION_WATERSHED →
      flags &&& PARTITION_MASK ≠ PARTITION_MONOTONE → e.buildLayerRegions = false →
      (buildTileMesh e flags ntris areas numAreas).navData = none) := by
  obtain ⟨tr0, heq, hw, hm, hl⟩ :=
    buildTileMesh_eq_post e flags ntris numAreas areas h1 h2 h3 h4 h5 h6
  rw [heq]
  exact buildTileMeshPost_partition e flags [Res.compactHeightfield] tr0 hw hm hl

/-- Counterexample to C2 as frozen: with flags 24 both the watershed and
the monotone bits are set, yet the layer policy is applied and neither
watershed nor monotone runs. -/
theorem C2_counterexample :
    (24 : Nat) &&& PARTITION_WATERSHED ≠ 0 ∧
    (24 : Nat) &&& PARTITION_MONOTONE ≠ 0 ∧
    ¬ watershedApplied (buildTileMesh allOkEngine 24 2 none 0).trace ∧
    ¬ monotoneApplied (buildTileMesh allOkEngine 24 2 none 0).trace ∧
    layerApplied (buildTileMesh allOkEngine 24 2 none 0).trace := by decide

/-- Witness for C2 at the all-success engine with watershed flags. -/
theorem C2_partition_policy_witness :
    (watershedApplied (buildTileMesh allOkEngine 8 2 none 0).trace ↔
        (8 : Nat) &&& PARTITION_MASK = PARTITION_WATERSHED) ∧
    (monotoneApplied (buildTileMesh allOkEngine 8 2 none 0).trace ↔
        (8 : Nat) &&& PARTITION_MASK = PARTITION_MONOTONE) ∧
    (layerApplied (buildTileMesh allOkEngine 8 2 none 0).trace ↔
        ((8 : Nat) &&& PARTITION_MASK ≠ PARTITION_WATERSHED ∧
         (8 : Nat) &&& PARTITION_MASK ≠ PARTITION_MONOTONE)) ∧
    ((8 : Nat) &&& PARTITION_MASK = PARTITION_WATERSHED →
      (allOkEngine.buildDistanceField = false ∨ allOkEngine.buildRegions = false) →
      (buildTileMesh allOkEngine 8 2 none 0).navData = none) ∧
    ((8 : Nat) &&& PARTITION_MASK = PARTITION_MONOTONE →
      allOkEngine.buildRegionsMonotone = false →
      (buildTileMesh allOkEngine 8 2 none 0).navData = none) ∧
    ((8 : Nat) &&& PARTITION_MASK ≠ PARTITION_WATERSHED →
      (8 : Nat) &&& PARTITION_MASK ≠ PARTITION_MONOTONE →
      allOkEngine.buildLayerRegions = false →
      (buildTileMesh allOkEngine 8 2 none 0).navData = none) :=
  C2_partition_policy allOkEngine 8 2 0 none rfl rfl rfl rfl rfl rfl

theorem prefix_append_more {α : Type} {pre tr : List α} (l : List α) (h : pre <+: tr) :
    pre <+: tr ++ l :=
  h.trans (List.prefix_append tr l)

set_option maxHeartbeats 1000000 in
theorem buildTileMeshPost_trace_pfx (e : Engine) (flags : Nat) (live : List Res)
    (tr : List Op) : tr <+: (buildTileMeshPost e flags live tr).trace := by
  unfold buildTileMeshPost
  rcases partitionStep_inl_inr e flags tr with ⟨ex, h⟩ | ⟨ex, h⟩ <;> rw [h]
  · exact List.prefix_append tr ex
  · repeat' split
    all_goals (try simp_all)
    all_goals (try subst_vars)
    all_goals
      repeat
        first
        | exact List.prefix_append _ _
        | exact List.prefix_refl _
        | apply prefix_append_more

theorem containsSeg_self_append (u seg : List Op) : containsSeg (u ++ seg) seg :=
  ⟨u, [], by simp⟩

theorem containsSeg_append {t seg : List Op} (l : List Op) (h : containsSeg t seg) :
    containsSeg (t ++ l) seg := by
  obtain ⟨u, v, rfl⟩ := h
  exact ⟨u, v ++ l, by simp⟩

theorem containsSeg_refl (seg : List Op) : containsSeg seg seg := ⟨[], [], by simp⟩

theorem containsSeg_prefix (seg v : List Op) : containsSeg (seg ++ v) seg :=
  ⟨[], v, by simp⟩

theorem containsSeg_cons {t seg : List Op} (o : Op) (h : containsSeg t seg) :
    containsSeg (o :: t) seg := by
  obtain ⟨u, v, rfl⟩ := h
  exact ⟨o :: u, v, by simp⟩

theorem containsSeg_of_isPrefix {t t2 seg : List Op} (h : t <+: t2)
    (hc : containsSeg t seg) : containsSeg t2 seg := by
  obtain ⟨r, rfl⟩ := h
  exact containsSeg_append r hc

theorem containsSeg_sub {t s x y : List Op} {seg : List Op} (h : containsSeg t s)
    (hs : s = x ++ seg ++ y) : containsSeg t seg := by
  obtain ⟨u, v, rfl⟩ := h
  subst hs
  exact ⟨u ++ x, y ++ v, by simp⟩

theorem areasTrace_decomp {e : Engine} {l : List (Nat × AreaMarkingData)} {i : Nat}
    {a : AreaMarkingData} (hmem : (i, a) ∈ l) (hv : areaValid a = true) :
    ∃ x y, areasTrace e l =
      x ++ ([Op.markWalkableTrianglesArea i (areaTriFlagsOf e i a.ntris),
             Op.rasterizeTrianglesArea i (areaTriFlagsOf e i a.ntris)]) ++ y := by
  induction l with
  | nil => cases hmem
  | cons p rest ih =>
    rcases List.mem_cons.mp hmem with heq | hrest
    · refine ⟨[], areasTrace e rest, ?_⟩
      rw [← heq]
      simp [areasTrace, hv]
    · obtain ⟨x, y, hxy⟩ := ih hrest
      refine ⟨(if areaValid p.2 then
          [Op.markWalkableTrianglesArea p.1 (areaTriFlagsOf e p.1 p.2.ntris),
           Op.rasterizeTrianglesArea p.1 (areaTriFlagsOf e p.1 p.2.ntris)] else []) ++ x,
        y, ?_⟩
      simp only [areasTrace, List.flatMap_cons]
      rw [show (rest.flatMap fun p =>
          if areaValid p.2 then
            [Op.markWalkableTrianglesArea p.1 (areaTriFlagsOf e p.1 p.2.ntris),
             Op.rasterizeTrianglesArea p.1 (areaTriFlagsOf e p.1 p.2.ntris)]
          else []) = areasTrace e rest from rfl, hxy]
      simp [List.append_assoc]

set_option maxHeartbeats 2000000 in
theorem buildTileMesh_areasTrace_seg (e : Engine) (flags ntris numAreas : Nat)
    (l : List AreaMarkingData)
    (h1 : e.allocHeightfield = true) (h2 : e.createHeightfield = true)
    (h3 : e.rasterizeBase = true) (hnum : 0 < numAreas) :
    containsSeg (buildTileMesh e flags ntris (some l) numAreas).trace
      (areasTrace e (l.take numAreas).enum) := by
  unfold buildTileMesh
  simp [h1, h2, h3, hnum, rasterizeAreasAux_eq, foldl_areasLiveStep_hf_tri,
    List.erase_cons]
  repeat' split
  all_goals
    first
    | ((repeat
         first
         | exact containsSeg_refl _
         | exact containsSeg_prefix _ _
         | exact containsSeg_self_append _ _
         | apply containsSeg_cons
         | apply containsSeg_append)
       done)
    | (apply containsSeg_of_isPrefix (buildTileMeshPost_trace_pfx _ _ _ _)
       (repeat
         first
         | exact containsSeg_refl _
         | exact containsSeg_prefix _ _
         | exact containsSeg_self_append _ _
         | apply containsSeg_cons
         | apply containsSeg_append)
       done)

/-- C3 amended: once the tile build reaches the overlay voxelization, each
valid overlay's triangles are first passed through the walkable-slope
classification — only triangles accepted by the slope test are marked with
the walkable area code, the rest keep classification 0 — and immediately
afterwards all of the overlay's triangles are voxelized into the tile
heightfield with those classifications. -/
theorem C3_overlay_classification (e : Engine) (flags ntris numAreas : Nat)
    (l : List AreaMarkingData) (i : Nat) (a : AreaMarkingData)
    (h1 : e.allocHeightfield = true) (h2 : e.createHeightfield = true)
    (h3 : e.rasterizeBase = true) (hnum : 0 < numAreas)
    (hmem : (i, a) ∈ (l.take numAreas).enum) (hvalid : areaValid a = true) :
    containsSeg (buildTileMesh e flags ntris (some l) numAreas).trace
      [Op.markWalkableTrianglesArea i (areaTriFlagsOf e i a.ntris),
       Op.rasterizeTrianglesArea i (areaTriFlagsOf e i a.ntris)] ∧
    (∀ j, j < a.ntris → (areaTriFlagsOf e i a.ntris).getD j 0
        = if e.walkableArea i j then RC_WALKABLE_AREA else 0) := by
  constructor
  · have hbig := buildTileMesh_areasTrace_seg e flags ntris numAreas l h1 h2 h3 hnum
    obtain ⟨x, y, hxy⟩ := areasTrace_decomp (e := e) hmem hvalid
    exact containsSeg_sub hbig hxy
  · intro j hj
    simp [areaTriFlagsOf, List.getD_eq_getElem?_getD, List.getElem?_map,
      List.getElem?_range, hj]

/-- Counterexample to C3 as frozen: a valid overlay with non-empty vertex
and triangle buffers whose only triangle fails the slope classification is
voxelized with classification 0, so not all of the overlay's triangles are
marked walkable. -/
theorem C3_counterexample :
    areaValid oneTriOverlay = true ∧
    ¬ allAreaTrisMarkedWalkable
        (buildTileMesh steepOverlayEngine 8 1 (some [oneTriOverlay]) 1).trace := by
  decide

/-- Witness for C3 at the all-success engine and the one-triangle
overlay. -/
theorem C3_overlay_classification_witness :
    containsSeg (buildTileMesh allOkEngine 8 1 (some [oneTriOverlay]) 1).trace
      [Op.markWalkableTrianglesArea 0 (areaTriFlagsOf allOkEngine 0 oneTriOverlay.ntris),
       Op.rasterizeTrianglesArea 0 (areaTriFlagsOf allOkEngine 0 oneTriOverlay.ntris)] ∧
    (∀ j, j < oneTriOverlay.ntris →
      (areaTriFlagsOf allOkEngine 0 oneTriOverlay.ntris).getD j 0
        = if allOkEngine.walkableArea 0 j then RC_WALKABLE_AREA else 0) :=
  C3_overlay_classification allOkEngine 8 1 1 [oneTriOverlay] 0 oneTriOverlay
    rfl rfl rfl (by decide) (by simp) rfl

/-! ### The multi-tile build loop and the assembler -/

theorem buildLoop_attempts (flags ntris : Nat) (areas : Option (List AreaMarkingData))
    (numAreas : Nat) (engines : Nat → Nat → Engine) (mal : Nat → Bool)
    (coords : List (Nat × Nat)) :
    ∀ s : NavMeshState × Nat × List (Nat × Nat),
      (coords.foldl (buildLoopStep flags ntris areas numAreas engines mal) s).2.2
        = s.2.2 ++ coords := by
  induction coords with
  | nil => intro s; simp
  | cons xy rest ih =>
    intro s
    rw [List.foldl_cons, ih]
    unfold buildLoopStep
    cases h : (buildTileMesh (engines xy.1 xy.2) flags ntris areas numAreas).navData <;>
      simp [h]

theorem codeOf_spec (n : Nat) :
    ((if 0 < n then BCodeStatus.ok else BCodeStatus.errBuildTile) = BCodeStatus.ok ↔
      0 < n) ∧
    (n = 0 → (if 0 < n then BCodeStatus.ok else BCodeStatus.errBuildTile)
        = BCodeStatus.errBuildTile) := by
  by_cases h : 0 < n <;> simp [h] <;> omega

/-- C4: after a successful result allocation, navmesh allocation and
initialization, the overall result code is OK exactly when at least one
tile was built, the zero-tiles case yields the build-level failure code,
the loop visits every tile coordinate regardless of per-tile outcomes, and
the caller receives both the tiles-built and total-tiles counts. -/
theorem C4_overall_status (gw gh tileSize flags ntris : Nat)
    (areaArrays : Option (List AreaMarkingData)) (numAreaMeshes : Nat)
    (engines : Nat → Nat → Engine) (mal : Nat → Bool) :
    ∃ r, buildTiledNavMeshImpl gw gh tileSize flags ntris areaArrays numAreaMeshes
        engines mal true true true = some r ∧
      (r.code = BCodeStatus.ok ↔ 0 < r.tilesBuilt) ∧
      (r.tilesBuilt = 0 → r.code = BCodeStatus.errBuildTile) ∧
      r.attempts = gridCoords (tileGridWidth gw tileSize) (tileGridHeight gh tileSize) ∧
      r.totalTiles = totalTilesOf gw gh tileSize := by
  refine ⟨_, rfl, (codeOf_spec _).1, (codeOf_spec _).2, ?_, rfl⟩
  simpa using buildLoop_attempts flags ntris
    (match areaArrays with
      | some l => if 0 < numAreaMeshes then some (l.take numAreaMeshes) else none
      | none => none)
    numAreaMeshes engines mal
    (gridCoords (tileGridWidth gw tileSize) (tileGridHeight gh tileSize))
    (⟨maxTiles (totalTilesOf gw gh tileSize), maxPolysPerTile (totalTilesOf gw gh tileSize),
      []⟩, 0, [])

/-- Witness for C4 at a concrete 2 by 2 tile grid with an all-success
engine. -/
theorem C4_overall_status_witness :
    ∃ r, buildTiledNavMeshImpl 3 3 2 8 2 none 0 (fun _ _ => allOkEngine) (fun _ => false)
        true true true = some r ∧
      (r.code = BCodeStatus.ok ↔ 0 < r.tilesBuilt) ∧
      (r.tilesBuilt = 0 → r.code = BCodeStatus.errBuildTile) ∧
      r.attempts = gridCoords (tileGridWidth 3 2) (tileGridHeight 3 2) ∧
      r.totalTiles = totalTilesOf 3 3 2 :=
  C4_overall_status 3 3 2 8 2 none 0 (fun _ _ => allOkEngine) (fun _ => false)

/-- C10: the deprecated entry point returns exactly the result of the new
entry point invoked with null overlay arrays and overlay count 0, and its
deprecated areaMeshes, areaCodes and numAreaMeshes arguments never
influence the output. -/
theorem C10_deprecated_equiv (gw gh tileSize flags ntris : Nat)
    (areaMeshes areaCodes : Option Nat) (numAreaMeshes : Nat)
    (engines : Nat → Nat → Engine) (mal : Nat → Bool)
    (callocOk allocNavMeshOk initOk : Bool) :
    bindingBuildTiledNavMesh gw gh tileSize flags ntris areaMeshes areaCodes numAreaMeshes
        engines mal callocOk allocNavMeshOk initOk
      = bindingBuildTiledNavMeshWithAreas gw gh tileSize flags ntris none 0
        engines mal callocOk allocNavMeshOk initOk ∧
    (∀ aM2 aC2 nAM2,
      bindingBuildTiledNavMesh gw gh tileSize flags ntris aM2 aC2 nAM2
          engines mal callocOk allocNavMeshOk initOk
        = bindingBuildTiledNavMesh gw gh tileSize flags ntris areaMeshes areaCodes
            numAreaMeshes engines mal callocOk allocNavMeshOk initOk) :=
  ⟨rfl, fun _ _ _ => rfl⟩

set_option maxHeartbeats 1000000 in
/-- C8 amended: the loop's insertion step first removes any tile at the
coordinate, so the assembler never holds two tiles at one coordinate and
repeating the step with the same coordinate and blob leaves the tile map
unchanged; but the tiles-built counter increments on every successful
insertion, so two successful identical calls add 2 (and two failing calls
add 0), not at most 1. -/
theorem C8_addTile_semantics (mal : Nat → Bool) (nm : NavMeshState) (c x y b : Nat)
    (hnodup : (nm.tiles.map Prod.fst).Nodup) :
    ((addTileStep mal (addTileStep mal nm c x y b).1 (addTileStep mal nm c x y b).2.1
        x y b).1
      = (addTileStep mal nm c x y b).1) ∧
    (((addTileStep mal nm c x y b).1.tiles.map Prod.fst).Nodup) ∧
    (((addTileStep mal nm c x y b).1.tiles.filter (fun p => p.1 == (x, y))).length ≤ 1) ∧
    ((addTileStep mal nm c x y b).2.2 = true →
      (addTileStep mal (addTileStep mal nm c x y b).1 (addTileStep mal nm c x y b).2.1
          x y b).2.1 = c + 2) ∧
    ((addTileStep mal nm c x y b).2.2 = false →
      (addTileStep mal (addTileStep mal nm c x y b).1 (addTileStep mal nm c x y b).2.1
          x y b).2.1 = c) := by
  have hsub : List.Sublist ((nm.tiles.filter (fun p => p.1 != (x, y))).map Prod.fst)
      (nm.tiles.map Prod.fst) := (List.filter_sublist _).map Prod.fst
  have hnodupF : ((nm.tiles.filter (fun p => p.1 != (x, y))).map Prod.fst).Nodup :=
    hnodup.sublist hsub
  have hidem : (nm.tiles.filter (fun p => p.1 != (x, y))).filter (fun p => p.1 != (x, y))
      = nm.tiles.filter (fun p => p.1 != (x, y)) := by
    simp
  have heqnil : (nm.tiles.filter (fun p => p.1 != (x, y))).filter (fun p => p.1 == (x, y))
      = [] := by
    rw [List.filter_eq_nil_iff]
    intro p hp
    have h2 := (List.mem_filter.mp hp).2
    simp_all
  have hnotin : (x, y) ∉ (nm.tiles.filter (fun p => p.1 != (x, y))).map Prod.fst := by
    intro hin
    obtain ⟨p, hp, hfst⟩ := List.mem_map.mp hin
    have h2 := (List.mem_filter.mp hp).2
    rw [hfst] at h2
    simp at h2
  by_cases hm : mal b = true
  · simp [addTileStep, addTile, removeTileAt, hm, hidem, heqnil, hnodupF]
  · simp only [Bool.not_eq_true] at hm
    by_cases hcap : nm.maxTiles ≤ (nm.tiles.filter (fun p => p.1 != (x, y))).length
    · simp [addTileStep, addTile, removeTileAt, hm, hidem, heqnil, hnodupF, hcap]
    · have happ : ((nm.tiles.filter (fun p => p.1 != (x, y))) ++ [((x, y), b)]).filter
          (fun p => p.1 != (x, y)) = nm.tiles.filter (fun p => p.1 != (x, y)) := by
        rw [List.filter_append, hidem]
        simp
      have happ2 : ((nm.tiles.filter (fun p => p.1 != (x, y))) ++ [((x, y), b)]).filter
          (fun p => p.1 == (x, y)) = [((x, y), b)] := by
        rw [List.filter_append, heqnil]
        simp
      have hnodup2 : ((nm.tiles.filter (fun p => p.1 != (x, y))).map Prod.fst
          ++ [(x, y)]).Nodup := by
        refine List.Nodup.append hnodupF (by simp) ?_
        intro q hq hq2
        simp only [List.mem_cons, List.not_mem_nil, or_false] at hq2
        rw [hq2] at hq
        exact hnotin hq
      simp [addTileStep, addTile, removeTileAt, hm, hidem, heqnil, hcap, happ, happ2,
        hnodup2]

/-- Counterexample to C8 as frozen: two identical successful AddTile calls
at one coordinate leave the tiles-built counter 2 higher, not at most 1
net. -/
theorem C8_counterexample :
    ((addTileStep (fun _ => false)
        (addTileStep (fun _ => false) emptyAssembler 0 0 0 5).1
        (addTileStep (fun _ => false) emptyAssembler 0 0 0 5).2.1 0 0 5).2.1 = 2) ∧
    ¬ ((addTileStep (fun _ => false)
        (addTileStep (fun _ => false) emptyAssembler 0 0 0 5).1
        (addTileStep (fun _ => false) emptyAssembler 0 0 0 5).2.1 0 0 5).2.1 - 0 ≤ 1) := by
  decide

/-- Witness for C8 at the empty single-capacity assembler. -/
theorem C8_addTile_semantics_witness :
    ((addTileStep (fun _ => false)
        (addTileStep (fun _ => false) emptyAssembler 0 0 0 5).1
        (addTileStep (fun _ => false) emptyAssembler 0 0 0 5).2.1 0 0 5).1
      = (addTileStep (fun _ => false) emptyAssembler 0 0 0 5).1) ∧
    (((addTileStep (fun _ => false) emptyAssembler 0 0 0 5).1.tiles.map Prod.fst).Nodup) ∧
    (((addTileStep (fun _ => false) emptyAssembler 0 0 0 5).1.tiles.filter
        (fun p => p.1 == (0, 0))).length ≤ 1) ∧
    ((addTileStep (fun _ => false) emptyAssembler 0 0 0 5).2.2 = true →
      (addTileStep (fun _ => false)
        (addTileStep (fun _ => false) emptyAssembler 0 0 0 5).1
        (addTileStep (fun _ => false) emptyAssembler 0 0 0 5).2.1 0 0 5).2.1 = 0 + 2) ∧
    ((addTileStep (fun _ => false) emptyAssembler 0 0 0 5).2.2 = false →
      (addTileStep (fun _ => false)
        (addTileStep (fun _ => false) emptyAssembler 0 0 0 5).1
        (addTileStep (fun _ => false) emptyAssembler 0 0 0 5).2.1 0 0 5).2.1 = 0) :=
  C8_addTile_semantics (fun _ => false) emptyAssembler 0 0 0 5 (by decide)


/-! ### The navmesh set serializer -/

theorem export_size_fold (ths : Nat) (l : List (Option MeshTile)) :
    ∀ init : Nat,
      l.foldl (fun acc t =>
        match t with
        | some tile =>
          if tile.hasHeader && tile.dataSize != 0 then acc + (ths + tile.dataSize) else acc
        | none => acc) init
      = init + ((l.filterMap (fun t =>
          match t with
          | some tile =>
            if tile.hasHeader && tile.dataSize != 0 then some tile else none
          | none => none)).map (fun t => ths + t.dataSize)).sum := by
  induction l with
  | nil => simp
  | cons t rest ih =>
    intro init
    rw [List.foldl_cons]
    cases t with
    | none => exact ih init
    | some tile =>
      by_cases h : (tile.hasHeader && tile.dataSize != 0) = true
      · have hf : (if tile.hasHeader && tile.dataSize != 0 then some tile else none)
            = some tile := if_pos h
        rw [ih]
        show (if tile.hasHeader && tile.dataSize != 0 then
            init + (ths + tile.dataSize) else init) + _ = _
        rw [if_pos h]
        simp only [List.filterMap_cons, hf, List.map_cons, List.sum_cons]
        omega
      · have hf : (if tile.hasHeader && tile.dataSize != 0 then some tile else none)
            = none := if_neg h
        rw [ih]
        show (if tile.hasHeader && tile.dataSize != 0 then
            init + (ths + tile.dataSize) else init) + _ = _
        rw [if_neg h]
        simp only [List.filterMap_cons, hf]

theorem export_count_fold (l : List (Option MeshTile)) :
    ∀ init : Nat,
      l.foldl (fun acc t =>
        match t with
        | some tile => if tile.hasHeader && tile.dataSize != 0 then acc + 1 else acc
        | none => acc) init
      = init + (l.filterMap (fun t =>
          match t with
          | some tile =>
            if tile.hasHeader && tile.dataSize != 0 then some tile else none
          | none => none)).length := by
  induction l with
  | nil => simp
  | cons t rest ih =>
    intro init
    rw [List.foldl_cons]
    cases t with
    | none => exact ih init
    | some tile =>
      by_cases h : (tile.hasHeader && tile.dataSize != 0) = true
      · have hf : (if tile.hasHeader && tile.dataSize != 0 then some tile else none)
            = some tile := if_pos h
        rw [ih]
        show (if tile.hasHeader && tile.dataSize != 0 then init + 1 else init) + _ = _
        rw [if_pos h]
        simp only [List.filterMap_cons, hf, List.length_cons]
        omega
      · have hf : (if tile.hasHeader && tile.dataSize != 0 then some tile else none)
            = none := if_neg h
        rw [ih]
        show (if tile.hasHeader && tile.dataSize != 0 then init + 1 else init) + _ = _
        rw [if_neg h]
        simp only [List.filterMap_cons, hf]

theorem export_chunks_fold (l : List (Option MeshTile)) :
    ∀ init : List Chunk,
      l.foldl (fun acc t =>
        match t with
        | some tile =>
          if tile.hasHeader && tile.dataSize != 0 then
            acc ++ [Chunk.tileRef tile.ref, Chunk.i32 tile.dataSize,
                    Chunk.bytes (tile.data.take tile.dataSize)]
          else acc
        | none => acc) init
      = init ++ (l.filterMap (fun t =>
          match t with
          | some tile =>
            if tile.hasHeader && tile.dataSize != 0 then some tile else none
          | none => none)).flatMap (fun t =>
            [Chunk.tileRef t.ref, Chunk.i32 t.dataSize,
             Chunk.bytes (t.data.take t.dataSize)]) := by
  induction l with
  | nil => simp
  | cons t rest ih =>
    intro init
    rw [List.foldl_cons]
    cases t with
    | none => exact ih init
    | some tile =>
      by_cases h : (tile.hasHeader && tile.dataSize != 0) = true
      · have hf : (if tile.hasHeader && tile.dataSize != 0 then some tile else none)
            = some tile := if_pos h
        rw [ih]
        show (if tile.hasHeader && tile.dataSize != 0 then
            init ++ [Chunk.tileRef tile.ref, Chunk.i32 tile.dataSize,
                     Chunk.bytes (tile.data.take tile.dataSize)] else init) ++ _ = _
        rw [if_pos h]
        simp only [List.filterMap_cons, hf, List.flatMap_cons, List.append_assoc,
          List.cons_append, List.nil_append]
      · have hf : (if tile.hasHeader && tile.dataSize != 0 then some tile else none)
            = none := if_neg h
        rw [ih]
        show (if tile.hasHeader && tile.dataSize != 0 then
            init ++ [Chunk.tileRef tile.ref, Chunk.i32 tile.dataSize,
                     Chunk.bytes (tile.data.take tile.dataSize)] else init) ++ _ = _
        rw [if_neg h]
        simp only [List.filterMap_cons, hf]

theorem flatMap_take_of_len (l : List MeshTile)
    (h : ∀ t ∈ l, t.data.length = t.dataSize) :
    l.flatMap (fun t =>
        [Chunk.tileRef t.ref, Chunk.i32 t.dataSize, Chunk.bytes (t.data.take t.dataSize)])
      = l.flatMap (fun t =>
        [Chunk.tileRef t.ref, Chunk.i32 t.dataSize, Chunk.bytes t.data]) := by
  induction l with
  | nil => rfl
  | cons t rest ih =>
    have ht := h t (List.mem_cons_self t rest)
    rw [List.flatMap_cons, List.flatMap_cons, ih (fun q hq => h q (List.mem_cons_of_mem t hq))]
    rw [← ht, List.take_length]

/-- C5: for a navmesh with live tiles the export produces a buffer of
total size headerSize plus the sum over live tiles of tileHeaderSize plus
blob size; the header opens with the magic constant MSET packed big-endian
into an int32, version 1 and the live-tile count, followed by the global
parameters record; then, per live tile in slot order, a tile header with
the tile reference and blob byte length followed by the blob's raw
bytes. -/
theorem C5_export_layout (headerSize tileHeaderSize : Nat) (nm : DtNavMesh)
    (hlen : ∀ t ∈ liveTilesOf nm, t.data.length = t.dataSize) :
    ∃ buf total,
      bindingExportTiledNavMesh headerSize tileHeaderSize nm true = some (buf, total) ∧
      total = headerSize
        + ((liveTilesOf nm).map (fun t => tileHeaderSize + t.dataSize)).sum ∧
      buf = [Chunk.i32 NAVMESHSET_MAGIC, Chunk.i32 NAVMESHSET_VERSION,
             Chunk.i32 (liveTilesOf nm).length, Chunk.paramsRec nm.params]
            ++ (liveTilesOf nm).flatMap
                (fun t => [Chunk.tileRef t.ref, Chunk.i32 t.dataSize, Chunk.bytes t.data]) ∧
      NAVMESHSET_MAGIC = 'M'.toNat * 2 ^ 24 + 'S'.toNat * 2 ^ 16 + 'E'.toNat * 2 ^ 8
        + 'T'.toNat ∧
      NAVMESHSET_VERSION = 1 := by
  refine ⟨_, _, rfl, ?_, ?_, by decide, rfl⟩
  · exact export_size_fold tileHeaderSize nm.tiles headerSize
  · rw [export_chunks_fold nm.tiles [], export_count_fold nm.tiles 0]
    rw [show (nm.tiles.filterMap (fun t =>
        match t with
        | some tile =>
          if tile.hasHeader && tile.dataSize != 0 then some tile else none
        | none => none)) = liveTilesOf nm from rfl]
    rw [flatMap_take_of_len (liveTilesOf nm) hlen]
    simp

/-- Witness for C5 at a concrete two-slot navmesh with one live tile. -/
theorem C5_export_layout_witness :
    ∃ buf total,
      bindingExportTiledNavMesh 100 12
        ⟨7, [some ⟨true, 2, [9, 9], 5⟩, none, some ⟨false, 3, [], 6⟩]⟩ true
        = some (buf, total) ∧
      total = 100 + ((liveTilesOf
          ⟨7, [some ⟨true, 2, [9, 9], 5⟩, none, some ⟨false, 3, [], 6⟩]⟩).map
            (fun t => 12 + t.dataSize)).sum ∧
      buf = [Chunk.i32 NAVMESHSET_MAGIC, Chunk.i32 NAVMESHSET_VERSION,
             Chunk.i32 (liveTilesOf
               ⟨7, [some ⟨true, 2, [9, 9], 5⟩, none, some ⟨false, 3, [], 6⟩]⟩).length,
             Chunk.paramsRec 7]
            ++ (liveTilesOf
               ⟨7, [some ⟨true, 2, [9, 9], 5⟩, none, some ⟨false, 3, [], 6⟩]⟩).flatMap
                (fun t => [Chunk.tileRef t.ref, Chunk.i32 t.dataSize, Chunk.bytes t.data]) ∧
      NAVMESHSET_MAGIC = 'M'.toNat * 2 ^ 24 + 'S'.toNat * 2 ^ 16 + 'E'.toNat * 2 ^ 8
        + 'T'.toNat ∧
      NAVMESHSET_VERSION = 1 :=
  C5_export_layout 100 12 ⟨7, [some ⟨true, 2, [9, 9], 5⟩, none, some ⟨false, 3, [], 6⟩]⟩
    (by decide)

end SwiftRecast
